import Mathlib

/-!
College bus fee and route manager (`src/code.c`)

A shallow embedding of the record stores, the billing function, the summary
report and the binary persistence of `src/code.c`, followed by theorems about
them.

Modelling conventions.

* A C `int` is an integer (`Int`).  The id counters are read twice: in the
  integers (the definitions with the plain source names), which is what the
  program computes as long as a counter stays below `INT_MAX`, and in 32 bits
  with wrap-around (namespace `Int32`), which is what it computes at the edge
  of the range.  Sizes and capacities, which the code never makes negative, are
  natural numbers.
* A C `double` is a rational number (`ℚ`): arithmetic is read exactly, the
  literals `50.0`, `5.0`, `0.95`, `4.5` are `50`, `5`, `19/20`, `9/2`.  The fee
  is read a second time on doubles that may be infinite or NaN (namespace
  `IEEE`).
* `RouteList.arr` / `StudentList.arr` hold the slots `0 .. size-1` of the C
  array, so `size` is the length of that list; the slots `size .. cap-1` of the
  allocation hold no record and are never read under the guard `i < size`.
* The global counters `nextRouteId`, `nextStudentId` are explicit fields of the
  state that the operations thread through.
* The environment (whether `realloc`/`malloc` gives memory, whether `fopen`
  opens, what a file holds) is an explicit argument.
-/

namespace BusManager

/-! ## Configuration -/

/-- The macro `MAX_ROUTE_NAME` (line 20). -/
def MAX_ROUTE_NAME : Nat := 64

/-- The macro `MAX_NAME` (line 21). -/
def MAX_NAME : Nat := 64

/-! ## Types (lines 29-57) -/

/-- The record `Route` (lines 29-34). -/
structure Route where
  id : Int
  name : List Char
  distance_km : ℚ
  rate_per_km : ℚ
deriving DecidableEq

/-- The container `RouteList` (lines 36-40); `size` is `arr.length`. -/
structure RouteList where
  arr : List Route
  cap : Nat
deriving DecidableEq

/-- The field `size` of a `RouteList`. -/
def RouteList.size (rl : RouteList) : Nat := rl.arr.length

/-- The record `Student` (lines 42-46). -/
structure Student where
  id : Int
  name : List Char
  routeId : Int
deriving DecidableEq

/-- The container `StudentList` (lines 48-52); `size` is `arr.length`. -/
structure StudentList where
  arr : List Student
  cap : Nat
deriving DecidableEq

/-- The field `size` of a `StudentList`. -/
def StudentList.size (sl : StudentList) : Nat := sl.arr.length

/-- The route collection together with the global `nextRouteId` (line 56). -/
structure RouteStore where
  routes : RouteList
  nextRouteId : Int
deriving DecidableEq

/-- The student collection together with the global `nextStudentId` (line 57). -/
structure StudentStore where
  students : StudentList
  nextStudentId : Int
deriving DecidableEq

/-! ## The three loops shared by both containers -/

/-- The scan `for (i = 0; i < size; ++i) if (arr[i].id == id) return i; return -1;`
(lines 97-98 and 161-162), at index `i` with the slots `arr[i ..]` left to visit. -/
def findIndexFrom {α : Type} (key : α → Int) (id : Int) : List α → Int → Int
  | [], _ => -1
  | x :: rest, i => if key x = id then i else findIndexFrom key id rest (i + 1)

/-- The shift `for (i = idx; i < size - 1; ++i) arr[i] = arr[i+1];` (lines 110 and
174), at index `i` with `k = size - 1 - i` iterations left. -/
def shiftLeft {α : Type} : Nat → List α → Nat → List α
  | 0, arr, _ => arr
  | k + 1, arr, i =>
    match arr[i + 1]? with
    | some x => shiftLeft k (arr.set i x) (i + 1)
    | none => arr

/-- The scan `maxid = 0; for (i ...) if (arr[i].id > maxid) maxid = arr[i].id;`
(lines 269-270 and 297-298). -/
def maxIdLoop {α : Type} (key : α → Int) (arr : List α) : Int :=
  arr.foldl (fun maxid x => if key x > maxid then key x else maxid) 0

/-! ## RouteList functions (lines 61-112) -/

/-- The function `initRouteList` (lines 61-65). -/
def initRouteList : RouteList := { arr := [], cap := 0 }

/-- The function `freeRouteList` (lines 67-71). -/
def freeRouteList (_rl : RouteList) : RouteList := { arr := [], cap := 0 }

/-- The function `ensureRouteCap` (lines 73-81); `allocOk` tells whether `realloc`
returns memory. -/
def ensureRouteCap (rl : RouteList) (allocOk : Bool) : RouteList :=
  if rl.size ≥ rl.cap then
    let newCap := if rl.cap = 0 then 4 else rl.cap * 2
    if allocOk then { rl with cap := newCap } else rl
  else rl

/-- The function `addRoute` (lines 83-94): the returned `int` and the state after. -/
def addRoute (s : RouteStore) (name : List Char) (distance_km rate_per_km : ℚ)
    (allocOk : Bool) : Int × RouteStore :=
  let rl := ensureRouteCap s.routes allocOk
  if rl.size ≥ rl.cap then (-1, { s with routes := rl })
  else
    let r : Route :=
      { id := s.nextRouteId, name := name.take (MAX_ROUTE_NAME - 1),
        distance_km := distance_km, rate_per_km := rate_per_km }
    (r.id, { routes := { rl with arr := rl.arr ++ [r] }, nextRouteId := s.nextRouteId + 1 })

/-- The function `findRouteIndexById` (lines 96-99). -/
def findRouteIndexById (rl : RouteList) (id : Int) : Int :=
  findIndexFrom Route.id id rl.arr 0

/-- The function `getRouteById` (lines 101-105); `none` is the `NULL` result. -/
def getRouteById (rl : RouteList) (id : Int) : Option Route :=
  let idx := findRouteIndexById rl id
  if idx < 0 then none else rl.arr[idx.toNat]?

/-- The function `removeRouteById` (lines 107-112). -/
def removeRouteById (rl : RouteList) (id : Int) : RouteList :=
  let idx := findRouteIndexById rl id
  if idx < 0 then rl
  else { rl with arr := (shiftLeft (rl.size - 1 - idx.toNat) rl.arr idx.toNat).dropLast }

/-! ## StudentList functions (lines 126-176) -/

/-- The function `initStudentList` (lines 126-130). -/
def initStudentList : StudentList := { arr := [], cap := 0 }

/-- The function `freeStudentList` (lines 132-136). -/
def freeStudentList (_sl : StudentList) : StudentList := { arr := [], cap := 0 }

/-- The function `ensureStudentCap` (lines 138-146); `allocOk` tells whether
`realloc` returns memory. -/
def ensureStudentCap (sl : StudentList) (allocOk : Bool) : StudentList :=
  if sl.size ≥ sl.cap then
    let newCap := if sl.cap = 0 then 8 else sl.cap * 2
    if allocOk then { sl with cap := newCap } else sl
  else sl

/-- The function `addStudent` (lines 148-158): the returned `int` and the state after. -/
def addStudent (s : StudentStore) (name : List Char) (routeId : Int)
    (allocOk : Bool) : Int × StudentStore :=
  let sl := ensureStudentCap s.students allocOk
  if sl.size ≥ sl.cap then (-1, { s with students := sl })
  else
    let st : Student :=
      { id := s.nextStudentId, name := name.take (MAX_NAME - 1), routeId := routeId }
    (st.id, { students := { sl with arr := sl.arr ++ [st] },
              nextStudentId := s.nextStudentId + 1 })

/-- The function `findStudentIndexById` (lines 160-163). -/
def findStudentIndexById (sl : StudentList) (id : Int) : Int :=
  findIndexFrom Student.id id sl.arr 0

/-- The function `getStudentById` (lines 165-169); `none` is the `NULL` result. -/
def getStudentById (sl : StudentList) (id : Int) : Option Student :=
  let idx := findStudentIndexById sl id
  if idx < 0 then none else sl.arr[idx.toNat]?

/-- The function `removeStudentById` (lines 171-176). -/
def removeStudentById (sl : StudentList) (id : Int) : StudentList :=
  let idx := findStudentIndexById sl id
  if idx < 0 then sl
  else { sl with arr := (shiftLeft (sl.size - 1 - idx.toNat) sl.arr idx.toNat).dropLast }

/-! ## Billing (lines 189-231) -/

/-- The function `calculateFeeForStudent` (lines 189-197); `none` is a `NULL`
student pointer. -/
def calculateFeeForStudent (s : Option Student) (rl : RouteList) : ℚ :=
  match s with
  | none => 0
  | some st =>
    match getRouteById rl st.routeId with
    | none => 0
    | some r =>
      let baseFare : ℚ := 50
      let fee := baseFare + r.distance_km * r.rate_per_km
      if r.distance_km < 5 then fee * (19 / 20) else fee

/-- One block of the receipt log: what the `fprintf` calls of lines 207-211 are given
(`date` stands for the text `ctime` makes of the clock). -/
structure FeeSlip where
  date : Int
  studentId : Int
  studentName : List Char
  routeName : List Char
  routeId : Int
  distance_km : ℚ
  rate_per_km : ℚ
  amount : ℚ
deriving DecidableEq

/-- The function `generateFeeSlip` (lines 199-214): the returned `int` and the receipt
log afterwards.  `receipts` is the log before, `openOk` tells whether
`fopen(filename, "a")` succeeds, `clock` is what `time(NULL)` returns; `none` is a `NULL`
student pointer. -/
def generateFeeSlip (s : Option Student) (rl : RouteList) (receipts : List FeeSlip)
    (openOk : Bool) (clock : Int) : Int × List FeeSlip :=
  match s with
  | none => (-1, receipts)
  | some st =>
    match getRouteById rl st.routeId with
    | none => (-1, receipts)
    | some r =>
      let amount := calculateFeeForStudent (some st) rl
      if openOk then
        (0, receipts ++
          [{ date := clock, studentId := st.id, studentName := st.name, routeName := r.name,
             routeId := r.id, distance_km := r.distance_km, rate_per_km := r.rate_per_km,
             amount := amount }])
      else (-1, receipts)

/-- One line of the summary report: what the `printf` of line 229 is given. -/
structure SummaryLine where
  name : List Char
  id : Int
  count : Int
  revenue : ℚ
deriving DecidableEq

/-- What `printSummary` prints after its heading: `No routes.` or one line per route. -/
inductive SummaryReport where
  | noRoutes : SummaryReport
  | lines : List SummaryLine → SummaryReport
deriving DecidableEq

/-- The report lines of a summary (none for `No routes.`). -/
def SummaryReport.rows : SummaryReport → List SummaryLine
  | .noRoutes => []
  | .lines ls => ls

/-- The inner loop of `printSummary` (lines 221-228) for the route `r`: the pair
`(count, total)` after the students have been visited in stored order. -/
def summaryLoop (sl : StudentList) (rl : RouteList) (r : Route) : Int × ℚ :=
  sl.arr.foldl
    (fun acc s =>
      if s.routeId = r.id then (acc.1 + 1, acc.2 + calculateFeeForStudent (some s) rl)
      else acc)
    (0, 0)

/-- The function `printSummary` (lines 216-231). -/
def printSummary (sl : StudentList) (rl : RouteList) : SummaryReport :=
  if rl.size = 0 then .noRoutes
  else
    .lines (rl.arr.map fun r =>
      let ct := summaryLoop sl rl r
      { name := r.name, id := r.id, count := ct.1, revenue := ct.2 })

/-! ## File I/O (lines 249-303) -/

/-- What `fread` finds in a routes file: the leading `int` count (`none` when the
file is shorter than one `int`) and the complete `Route` records after it. -/
structure RouteFile where
  count : Option Int
  records : List Route
deriving DecidableEq

/-- What `fread` finds in a students file: the leading `int` count (`none` when the
file is shorter than one `int`) and the complete `Student` records after it. -/
structure StudentFile where
  count : Option Int
  records : List Student
deriving DecidableEq

/-- The function `saveRoutesToFile` (lines 249-256): the returned `int` and the file
afterwards.  `disk` is the file before (`none`: it cannot be opened for reading),
`openOk` tells whether `fopen(filename, "wb")` succeeds; the results of `fwrite`
are not looked at by the code and the writes are taken to go through. -/
def saveRoutesToFile (rl : RouteList) (disk : Option RouteFile) (openOk : Bool) :
    Int × Option RouteFile :=
  if openOk then
    (0, some { count := some (rl.size : Int), records := if rl.size > 0 then rl.arr else [] })
  else (-1, disk)

/-- The function `loadRoutesFromFile` (lines 258-275): the returned `int` and the
state afterwards.  `disk` is the file (`none`: `fopen(filename, "rb")` fails),
`allocOk` tells whether `malloc` returns memory. -/
def loadRoutesFromFile (s : RouteStore) (disk : Option RouteFile) (allocOk : Bool) :
    Int × RouteStore :=
  match disk with
  | none => (-1, s)
  | some f =>
    match f.count with
    | none => (-1, s)
    | some n =>
      let rl := freeRouteList s.routes
      if n > 0 then
        if allocOk then
          let got := f.records.take n.toNat
          if got.length ≠ n.toNat then (-1, { s with routes := rl })
          else
            let maxid := maxIdLoop Route.id got
            (0, { routes := { arr := got, cap := n.toNat }, nextRouteId := maxid + 1 })
        else (-1, { s with routes := rl })
      else (0, { s with routes := rl })

/-- The function `saveStudentsToFile` (lines 277-284), read as `saveRoutesToFile`. -/
def saveStudentsToFile (sl : StudentList) (disk : Option StudentFile) (openOk : Bool) :
    Int × Option StudentFile :=
  if openOk then
    (0, some { count := some (sl.size : Int), records := if sl.size > 0 then sl.arr else [] })
  else (-1, disk)

/-- The function `loadStudentsFromFile` (lines 286-303), read as `loadRoutesFromFile`. -/
def loadStudentsFromFile (s : StudentStore) (disk : Option StudentFile) (allocOk : Bool) :
    Int × StudentStore :=
  match disk with
  | none => (-1, s)
  | some f =>
    match f.count with
    | none => (-1, s)
    | some n =>
      let sl := freeStudentList s.students
      if n > 0 then
        if allocOk then
          let got := f.records.take n.toNat
          if got.length ≠ n.toNat then (-1, { s with students := sl })
          else
            let maxid := maxIdLoop Student.id got
            (0, { students := { arr := got, cap := n.toNat }, nextStudentId := maxid + 1 })
        else (-1, { s with students := sl })
      else (0, { s with students := sl })

/-! ## Sequences of operations -/

/-- The state at the start of `main` (lines 56-57, 326-327): both lists initialised,
both counters 1. -/
def initRouteStore : RouteStore := { routes := initRouteList, nextRouteId := 1 }

/-- The student state at the start of `main`. -/
def initStudentStore : StudentStore := { students := initStudentList, nextStudentId := 1 }

/-- A call of `addRoute` or of `removeRouteById`, with its arguments. -/
inductive RouteOp where
  | add (name : List Char) (distance_km rate_per_km : ℚ) (allocOk : Bool) : RouteOp
  | remove (id : Int) : RouteOp
deriving DecidableEq

/-- A call of `addStudent` or of `removeStudentById`, with its arguments. -/
inductive StudentOp where
  | add (name : List Char) (routeId : Int) (allocOk : Bool) : StudentOp
  | remove (id : Int) : StudentOp
deriving DecidableEq

/-- Runs a sequence of route operations; gives the values returned by the calls of
`addRoute`, in order, and the final state. -/
def runRouteOps : RouteStore → List RouteOp → List Int × RouteStore
  | s, [] => ([], s)
  | s, .add name d r allocOk :: ops =>
    let res := addRoute s name d r allocOk
    let rest := runRouteOps res.2 ops
    (res.1 :: rest.1, rest.2)
  | s, .remove id :: ops =>
    runRouteOps { s with routes := removeRouteById s.routes id } ops

/-- Runs a sequence of student operations; gives the values returned by the calls of
`addStudent`, in order, and the final state. -/
def runStudentOps : StudentStore → List StudentOp → List Int × StudentStore
  | s, [] => ([], s)
  | s, .add name routeId allocOk :: ops =>
    let res := addStudent s name routeId allocOk
    let rest := runStudentOps res.2 ops
    (res.1 :: rest.1, rest.2)
  | s, .remove id :: ops =>
    runStudentOps { s with students := removeStudentById s.students id } ops

/-- The function `seedExampleData` (lines 309-319).  `allocOk k` tells whether `realloc`
returns memory in the `k`-th of the five add calls; the result is `none` when the code
reads `rl->arr[i]` at an index `i` that is not below `rl->size`. -/
def seedExampleData (rs : RouteStore) (ss : StudentStore) (allocOk : Nat → Bool) :
    Option (RouteStore × StudentStore) :=
  let rs1 :=
    if rs.routes.size = 0 then
      let a := (addRoute rs "North Campus".toList (9 / 2) 6 (allocOk 0)).2
      let b := (addRoute a "East Colony".toList 12 5 (allocOk 1)).2
      (addRoute b "West Market".toList 8 (11 / 2) (allocOk 2)).2
    else rs
  if ss.students.size = 0 then
    match rs1.routes.arr[0]? with
    | none => none
    | some r0 =>
      let ss1 := (addStudent ss "Aman Kumar".toList r0.id (allocOk 3)).2
      match rs1.routes.arr[1]? with
      | none => none
      | some r1 => some (rs1, (addStudent ss1 "Priya Singh".toList r1.id (allocOk 4)).2)
  else some (rs1, ss)

/-- The state after the two loads at the start of `main` (lines 326-331): both lists
initialised, then loaded from the two files; the results of the loads are not looked
at. -/
def loadAtStartup (routesDisk : Option RouteFile) (studentsDisk : Option StudentFile)
    (routesAllocOk studentsAllocOk : Bool) : RouteStore × StudentStore :=
  ((loadRoutesFromFile initRouteStore routesDisk routesAllocOk).2,
   (loadStudentsFromFile initStudentStore studentsDisk studentsAllocOk).2)

/-! ## Reachable states -/

/-- The route states reachable from the initial one through `addRoute`,
`removeRouteById` and successful `loadRoutesFromFile`, whatever the arguments, the
outcome of the allocation and the content of the file. -/
inductive RouteReachable : RouteStore → Prop where
  | init : RouteReachable initRouteStore
  | add (s : RouteStore) (name : List Char) (distance_km rate_per_km : ℚ) (allocOk : Bool) :
      RouteReachable s → RouteReachable (addRoute s name distance_km rate_per_km allocOk).2
  | remove (s : RouteStore) (id : Int) :
      RouteReachable s → RouteReachable { s with routes := removeRouteById s.routes id }
  | load (s : RouteStore) (disk : Option RouteFile) (allocOk : Bool) :
      RouteReachable s → (loadRoutesFromFile s disk allocOk).1 = 0 →
      RouteReachable (loadRoutesFromFile s disk allocOk).2

/-- The student states reachable from the initial one through `addStudent`,
`removeStudentById` and successful `loadStudentsFromFile`. -/
inductive StudentReachable : StudentStore → Prop where
  | init : StudentReachable initStudentStore
  | add (s : StudentStore) (name : List Char) (routeId : Int) (allocOk : Bool) :
      StudentReachable s → StudentReachable (addStudent s name routeId allocOk).2
  | remove (s : StudentStore) (id : Int) :
      StudentReachable s →
      StudentReachable { s with students := removeStudentById s.students id }
  | load (s : StudentStore) (disk : Option StudentFile) (allocOk : Bool) :
      StudentReachable s → (loadStudentsFromFile s disk allocOk).1 = 0 →
      StudentReachable (loadStudentsFromFile s disk allocOk).2

/-! ## The machine reading of the id counters (32-bit `int`)

The definitions above read the arithmetic on the id counters in the integers.  The
definitions of this section repeat the four functions that compute with a counter
(`nextRouteId++`, `nextStudentId++`, `maxid + 1`) with the result reduced to the 32-bit
two's-complement range, which is what the compiled program does; the other functions do
no arithmetic on ids and are shared. -/

/-- The largest value of a 32-bit `int`. -/
def INT_MAX : Int := 2147483647

/-- The smallest value of a 32-bit `int`. -/
def INT_MIN : Int := -2147483648

/-- The value a 32-bit two's-complement `int` holds when the exact result is `x`. -/
def wrapInt (x : Int) : Int := (x + 2147483648) % 4294967296 - 2147483648

namespace Int32

/-- The function `addRoute` (lines 83-94) with `nextRouteId++` computed in 32 bits. -/
def addRoute (s : RouteStore) (name : List Char) (distance_km rate_per_km : ℚ)
    (allocOk : Bool) : Int × RouteStore :=
  let rl := ensureRouteCap s.routes allocOk
  if rl.size ≥ rl.cap then (-1, { s with routes := rl })
  else
    let r : Route :=
      { id := s.nextRouteId, name := name.take (MAX_ROUTE_NAME - 1),
        distance_km := distance_km, rate_per_km := rate_per_km }
    (r.id, { routes := { rl with arr := rl.arr ++ [r] },
             nextRouteId := wrapInt (s.nextRouteId + 1) })

/-- The function `addStudent` (lines 148-158) with `nextStudentId++` computed in 32
bits. -/
def addStudent (s : StudentStore) (name : List Char) (routeId : Int)
    (allocOk : Bool) : Int × StudentStore :=
  let sl := ensureStudentCap s.students allocOk
  if sl.size ≥ sl.cap then (-1, { s with students := sl })
  else
    let st : Student :=
      { id := s.nextStudentId, name := name.take (MAX_NAME - 1), routeId := routeId }
    (st.id, { students := { sl with arr := sl.arr ++ [st] },
              nextStudentId := wrapInt (s.nextStudentId + 1) })

/-- The function `loadRoutesFromFile` (lines 258-275) with `maxid + 1` computed in 32
bits; the arguments are those of the definition above. -/
def loadRoutesFromFile (s : RouteStore) (disk : Option RouteFile) (allocOk : Bool) :
    Int × RouteStore :=
  match disk with
  | none => (-1, s)
  | some f =>
    match f.count with
    | none => (-1, s)
    | some n =>
      let rl := freeRouteList s.routes
      if n > 0 then
        if allocOk then
          let got := f.records.take n.toNat
          if got.length ≠ n.toNat then (-1, { s with routes := rl })
          else
            let maxid := maxIdLoop Route.id got
            (0, { routes := { arr := got, cap := n.toNat },
                  nextRouteId := wrapInt (maxid + 1) })
        else (-1, { s with routes := rl })
      else (0, { s with routes := rl })

/-- The function `loadStudentsFromFile` (lines 286-303) with `maxid + 1` computed in 32
bits. -/
def loadStudentsFromFile (s : StudentStore) (disk : Option StudentFile) (allocOk : Bool) :
    Int × StudentStore :=
  match disk with
  | none => (-1, s)
  | some f =>
    match f.count with
    | none => (-1, s)
    | some n =>
      let sl := freeStudentList s.students
      if n > 0 then
        if allocOk then
          let got := f.records.take n.toNat
          if got.length ≠ n.toNat then (-1, { s with students := sl })
          else
            let maxid := maxIdLoop Student.id got
            (0, { students := { arr := got, cap := n.toNat },
                  nextStudentId := wrapInt (maxid + 1) })
        else (-1, { s with students := sl })
      else (0, { s with students := sl })

/-- Runs a sequence of route operations; gives the values returned by the calls of
`addRoute`, in order, and the final state. -/
def runRouteOps : RouteStore → List RouteOp → List Int × RouteStore
  | s, [] => ([], s)
  | s, .add name d r allocOk :: ops =>
    let res := addRoute s name d r allocOk
    let rest := runRouteOps res.2 ops
    (res.1 :: rest.1, rest.2)
  | s, .remove id :: ops =>
    runRouteOps { s with routes := removeRouteById s.routes id } ops

/-- Runs a sequence of student operations; gives the values returned by the calls of
`addStudent`, in order, and the final state. -/
def runStudentOps : StudentStore → List StudentOp → List Int × StudentStore
  | s, [] => ([], s)
  | s, .add name routeId allocOk :: ops =>
    let res := addStudent s name routeId allocOk
    let rest := runStudentOps res.2 ops
    (res.1 :: rest.1, rest.2)
  | s, .remove id :: ops =>
    runStudentOps { s with students := removeStudentById s.students id } ops

/-- The route states reachable from the initial one through `addRoute`,
`removeRouteById` and successful `loadRoutesFromFile`. -/
inductive RouteReachable : RouteStore → Prop where
  | init : RouteReachable initRouteStore
  | add (s : RouteStore) (name : List Char) (distance_km rate_per_km : ℚ) (allocOk : Bool) :
      RouteReachable s → RouteReachable (addRoute s name distance_km rate_per_km allocOk).2
  | remove (s : RouteStore) (id : Int) :
      RouteReachable s → RouteReachable { s with routes := removeRouteById s.routes id }
  | load (s : RouteStore) (disk : Option RouteFile) (allocOk : Bool) :
      RouteReachable s → (loadRoutesFromFile s disk allocOk).1 = 0 →
      RouteReachable (loadRoutesFromFile s disk allocOk).2

/-- The student states reachable from the initial one through `addStudent`,
`removeStudentById` and successful `loadStudentsFromFile`. -/
inductive StudentReachable : StudentStore → Prop where
  | init : StudentReachable initStudentStore
  | add (s : StudentStore) (name : List Char) (routeId : Int) (allocOk : Bool) :
      StudentReachable s → StudentReachable (addStudent s name routeId allocOk).2
  | remove (s : StudentStore) (id : Int) :
      StudentReachable s →
      StudentReachable { s with students := removeStudentById s.students id }
  | load (s : StudentStore) (disk : Option StudentFile) (allocOk : Bool) :
      StudentReachable s → (loadStudentsFromFile s disk allocOk).1 = 0 →
      StudentReachable (loadStudentsFromFile s disk allocOk).2

end Int32

/-! ## The machine reading of the fee (IEEE doubles with infinities and NaN)

`calculateFeeForStudent` above reads a `double` as a rational number.  The definitions of
this section repeat it on doubles that may also be `+inf`, `-inf` or NaN, as `scanf("%lf")`
and a routes file can deliver them; on finite values the arithmetic is still exact. -/

/-- A `double`: a finite value (read exactly), an infinity or NaN. -/
inductive Dbl where
  | fin : ℚ → Dbl
  | posInf : Dbl
  | negInf : Dbl
  | nan : Dbl
deriving DecidableEq

/-- The product of two doubles: NaN for `inf * 0`, otherwise the sign rule. -/
def Dbl.mul : Dbl → Dbl → Dbl
  | .nan, _ => .nan
  | _, .nan => .nan
  | .fin a, .fin b => .fin (a * b)
  | .fin a, .posInf => if 0 < a then .posInf else if a < 0 then .negInf else .nan
  | .fin a, .negInf => if 0 < a then .negInf else if a < 0 then .posInf else .nan
  | .posInf, .fin b => if 0 < b then .posInf else if b < 0 then .negInf else .nan
  | .negInf, .fin b => if 0 < b then .negInf else if b < 0 then .posInf else .nan
  | .posInf, .posInf => .posInf
  | .posInf, .negInf => .negInf
  | .negInf, .posInf => .negInf
  | .negInf, .negInf => .posInf

/-- The sum of two doubles: NaN for `inf + (-inf)`. -/
def Dbl.add : Dbl → Dbl → Dbl
  | .nan, _ => .nan
  | _, .nan => .nan
  | .fin a, .fin b => .fin (a + b)
  | .fin _, .posInf => .posInf
  | .fin _, .negInf => .negInf
  | .posInf, .fin _ => .posInf
  | .negInf, .fin _ => .negInf
  | .posInf, .posInf => .posInf
  | .negInf, .negInf => .negInf
  | .posInf, .negInf => .nan
  | .negInf, .posInf => .nan

/-- The comparison `x < y` of C on doubles: false as soon as one side is NaN. -/
def Dbl.lt : Dbl → Dbl → Bool
  | .nan, _ => false
  | _, .nan => false
  | .fin a, .fin b => decide (a < b)
  | .fin _, .posInf => true
  | .fin _, .negInf => false
  | .posInf, _ => false
  | .negInf, .negInf => false
  | .negInf, _ => true

/-- The comparison `x <= y` of C on doubles: false as soon as one side is NaN. -/
def Dbl.le : Dbl → Dbl → Bool
  | .nan, _ => false
  | _, .nan => false
  | .fin a, .fin b => decide (a ≤ b)
  | .fin _, .posInf => true
  | .fin _, .negInf => false
  | .posInf, .posInf => true
  | .posInf, _ => false
  | .negInf, _ => true

namespace IEEE

/-- The record `Route` (lines 29-34) with its two `double` fields as `Dbl`. -/
structure Route where
  id : Int
  name : List Char
  distance_km : Dbl
  rate_per_km : Dbl
deriving DecidableEq

/-- The container `RouteList` (lines 36-40); `size` is `arr.length`. -/
structure RouteList where
  arr : List Route
  cap : Nat
deriving DecidableEq

/-- The function `findRouteIndexById` (lines 96-99). -/
def findRouteIndexById (rl : RouteList) (id : Int) : Int :=
  findIndexFrom Route.id id rl.arr 0

/-- The function `getRouteById` (lines 101-105); `none` is the `NULL` result. -/
def getRouteById (rl : RouteList) (id : Int) : Option Route :=
  let idx := findRouteIndexById rl id
  if idx < 0 then none else rl.arr[idx.toNat]?

/-- The function `calculateFeeForStudent` (lines 189-197) on `Dbl`; `none` is a `NULL`
student pointer. -/
def calculateFeeForStudent (s : Option Student) (rl : RouteList) : Dbl :=
  match s with
  | none => .fin 0
  | some st =>
    match getRouteById rl st.routeId with
    | none => .fin 0
    | some r =>
      let baseFare : Dbl := .fin 50
      let fee := Dbl.add baseFare (Dbl.mul r.distance_km r.rate_per_km)
      if Dbl.lt r.distance_km (.fin 5) then Dbl.mul fee (.fin (19 / 20)) else fee

end IEEE

/-! ## Example data -/

/-- The three routes that `seedExampleData` adds to an empty list (lines 311-313), as
`addRoute` stores them from the initial state. -/
def exampleRoutes : RouteList :=
  { arr :=
      [{ id := 1, name := "North Campus".toList, distance_km := 9 / 2, rate_per_km := 6 },
       { id := 2, name := "East Colony".toList, distance_km := 12, rate_per_km := 5 },
       { id := 3, name := "West Market".toList, distance_km := 8, rate_per_km := 11 / 2 }],
    cap := 4 }

/-- A student on the given route. -/
def studentOn (id routeId : Int) : Student := { id := id, name := [], routeId := routeId }

/-- Three students in a list of capacity 8, two of them on route 1. -/
def exampleStudents : StudentList :=
  { arr := [studentOn 1 1, studentOn 2 2, studentOn 3 1], cap := 8 }

/-- A routes file whose count says 3 and which holds one record only. -/
def shortRouteFile : RouteFile :=
  { count := some 3,
    records := [{ id := 7, name := [], distance_km := 1, rate_per_km := 1 }] }

/-- A routes file with count 1 holding one route, as a save leaves it when one route
is stored. -/
def oneRouteFile : RouteFile :=
  { count := some 1,
    records := [{ id := 1, name := "North Campus".toList, distance_km := 9 / 2,
                  rate_per_km := 6 }] }

/-- A students file with count 0, as a save leaves it when no student is stored. -/
def noStudentFile : StudentFile := { count := some 0, records := [] }

/-- A route list holding one route, with the positive id `INT_MAX`. -/
def maxIdRoutes : RouteList :=
  { arr := [{ id := 2147483647, name := [], distance_km := 1, rate_per_km := 1 }], cap := 4 }

/-- A route list holding one route with distance `+inf` and rate 0. -/
def infiniteRoutes : IEEE.RouteList :=
  { arr := [{ id := 1, name := [], distance_km := .posInf, rate_per_km := .fin 0 }],
    cap := 4 }

/-- The seeded routes (`exampleRoutes`) with their doubles as `Dbl`. -/
def exampleRoutesIEEE : IEEE.RouteList :=
  { arr :=
      [{ id := 1, name := "North Campus".toList, distance_km := .fin (9 / 2),
         rate_per_km := .fin 6 },
       { id := 2, name := "East Colony".toList, distance_km := .fin 12,
         rate_per_km := .fin 5 },
       { id := 3, name := "West Market".toList, distance_km := .fin 8,
         rate_per_km := .fin (11 / 2) }],
    cap := 4 }

/-! ## Facts about the three loops -/

theorem findIndexFrom_absent {α : Type} (key : α → Int) (id : Int) (l : List α) (i : Int)
    (h : ∀ x ∈ l, key x ≠ id) : findIndexFrom key id l i = -1 := by
  induction l generalizing i with
  | nil => rfl
  | cons x rest ih =>
    have hx : key x ≠ id := h x (List.mem_cons_self _ _)
    simp only [findIndexFrom, hx, if_false]
    exact ih (i + 1) (fun y hy => h y (List.mem_cons_of_mem _ hy))

theorem findIndexFrom_present {α : Type} (key : α → Int) (id : Int) (l : List α) (i : Int)
    (h : ∃ x ∈ l, key x = id) :
    ∃ k : Nat, findIndexFrom key id l i = i + k ∧ k < l.length ∧
      (∃ x, l[k]? = some x ∧ key x = id) ∧
      ∀ j, j < k → ∀ y, l[j]? = some y → key y ≠ id := by
  induction l generalizing i with
  | nil => obtain ⟨x, hx, _⟩ := h; cases hx
  | cons x rest ih =>
    by_cases hx : key x = id
    · refine ⟨0, by simp [findIndexFrom, hx], by simp, ⟨x, by simp, hx⟩, ?_⟩
      intro j hj; omega
    · have h' : ∃ y ∈ rest, key y = id := by
        obtain ⟨y, hy, hk⟩ := h
        rcases List.mem_cons.mp hy with rfl | hy'
        · exact absurd hk hx
        · exact ⟨y, hy', hk⟩
      obtain ⟨k, hk1, hk2, ⟨y, hy1, hy2⟩, hk4⟩ := ih (i + 1) h'
      refine ⟨k + 1, ?_, by simpa using hk2, ⟨y, by simpa using hy1, hy2⟩, ?_⟩
      · simp only [findIndexFrom, hx, if_false, hk1]; push_cast; ring
      · intro j hj z hz
        cases j with
        | zero => simp at hz; subst hz; exact hx
        | succ j => exact hk4 j (by omega) z (by simpa using hz)

theorem findIndexFrom_neg_iff {α : Type} (key : α → Int) (id : Int) (l : List α) :
    findIndexFrom key id l 0 < 0 ↔ ∀ x ∈ l, key x ≠ id := by
  constructor
  · intro hneg x hx hk
    obtain ⟨k, hk1, _⟩ := findIndexFrom_present key id l 0 ⟨x, hx, hk⟩
    rw [hk1] at hneg; omega
  · intro h; rw [findIndexFrom_absent key id l 0 h]; decide

theorem set_eraseIdx_succ {α : Type} (arr : List α) (i : Nat) (x : α)
    (hx : arr[i + 1]? = some x) : (arr.set i x).eraseIdx (i + 1) = arr.eraseIdx i := by
  have hlen : i + 1 < arr.length := by
    rcases Nat.lt_or_ge (i + 1) arr.length with h | h
    · exact h
    · rw [List.getElem?_eq_none h] at hx; cases hx
  apply List.ext_getElem?
  intro j
  rw [List.getElem?_eraseIdx, List.getElem?_eraseIdx, List.getElem?_set, List.getElem?_set]
  by_cases h1 : j < i
  · have : ¬ i = j := by omega
    simp [h1, this, Nat.lt_succ_of_lt h1]
  · by_cases h2 : j = i
    · subst h2
      simp [hx]; omega
    · have h3 : ¬ j < i + 1 := by omega
      have h4 : ¬ i = j + 1 := by omega
      simp [h1, h3, h4]

theorem shiftLeft_dropLast {α : Type} (k : Nat) (arr : List α) (i : Nat)
    (h : i + k + 1 = arr.length) : (shiftLeft k arr i).dropLast = arr.eraseIdx i := by
  induction k generalizing arr i with
  | zero => exact List.dropLast_eq_eraseIdx (by simpa using h)
  | succ k ih =>
    have hlt : i + 1 < arr.length := by omega
    have hx : arr[i + 1]? = some arr[i + 1] := List.getElem?_eq_getElem hlt
    simp only [shiftLeft, hx]
    rw [ih (arr.set i arr[i + 1]) (i + 1) (by rw [List.length_set]; omega)]
    exact set_eraseIdx_succ arr i _ hx

theorem foldl_max_ge_init {α : Type} (key : α → Int) (l : List α) (m : Int) :
    m ≤ l.foldl (fun maxid x => if key x > maxid then key x else maxid) m := by
  induction l generalizing m with
  | nil => exact le_refl _
  | cons x rest ih =>
    simp only [List.foldl_cons]
    refine le_trans ?_ (ih _)
    split <;> omega

theorem foldl_max_ge_mem {α : Type} (key : α → Int) (l : List α) (m : Int) :
    ∀ x ∈ l, key x ≤ l.foldl (fun maxid x => if key x > maxid then key x else maxid) m := by
  induction l generalizing m with
  | nil => intro x hx; cases hx
  | cons y rest ih =>
    intro x hx
    simp only [List.foldl_cons]
    rcases List.mem_cons.mp hx with rfl | hx'
    · refine le_trans ?_ (foldl_max_ge_init key rest _)
      split <;> omega
    · exact ih _ x hx'

theorem foldl_max_attained {α : Type} (key : α → Int) (l : List α) (m : Int) :
    l.foldl (fun maxid x => if key x > maxid then key x else maxid) m = m ∨
      ∃ x ∈ l, key x = l.foldl (fun maxid x => if key x > maxid then key x else maxid) m := by
  induction l generalizing m with
  | nil => exact Or.inl rfl
  | cons y rest ih =>
    simp only [List.foldl_cons]
    by_cases hy : key y > m
    · simp only [hy, if_true]
      rcases ih (key y) with h | ⟨x, hx, hk⟩
      · exact Or.inr ⟨y, List.mem_cons_self _ _, h.symm⟩
      · exact Or.inr ⟨x, List.mem_cons_of_mem _ hx, hk⟩
    · simp only [hy, if_false]
      rcases ih m with h | ⟨x, hx, hk⟩
      · exact Or.inl h
      · exact Or.inr ⟨x, List.mem_cons_of_mem _ hx, hk⟩

theorem maxIdLoop_nonneg {α : Type} (key : α → Int) (l : List α) : 0 ≤ maxIdLoop key l :=
  foldl_max_ge_init key l 0

theorem maxIdLoop_ge {α : Type} (key : α → Int) (l : List α) :
    ∀ x ∈ l, key x ≤ maxIdLoop key l :=
  foldl_max_ge_mem key l 0

theorem maxIdLoop_attained {α : Type} (key : α → Int) (l : List α)
    (h : ∃ x ∈ l, 0 < key x) : ∃ x ∈ l, key x = maxIdLoop key l := by
  rcases foldl_max_attained key l 0 with h0 | hx
  · obtain ⟨x, hx, hpos⟩ := h
    have := maxIdLoop_ge key l x hx
    unfold maxIdLoop at this
    rw [h0] at this; omega
  · exact hx

/-! ## Facts about add and remove -/

theorem ensureRouteCap_arr (rl : RouteList) (allocOk : Bool) :
    (ensureRouteCap rl allocOk).arr = rl.arr := by
  unfold ensureRouteCap
  split
  · cases allocOk <;> rfl
  · rfl

theorem ensureStudentCap_arr (sl : StudentList) (allocOk : Bool) :
    (ensureStudentCap sl allocOk).arr = sl.arr := by
  unfold ensureStudentCap
  split
  · cases allocOk <;> rfl
  · rfl

theorem addRoute_cases (s : RouteStore) (name : List Char) (d r : ℚ) (allocOk : Bool) :
    ((addRoute s name d r allocOk).1 = -1 ∧
        (addRoute s name d r allocOk).2.nextRouteId = s.nextRouteId ∧
        (addRoute s name d r allocOk).2.routes.arr = s.routes.arr) ∨
      ((addRoute s name d r allocOk).1 = s.nextRouteId ∧
        (addRoute s name d r allocOk).2.nextRouteId = s.nextRouteId + 1 ∧
        (addRoute s name d r allocOk).2.routes.arr = s.routes.arr ++
          [{ id := s.nextRouteId, name := name.take (MAX_ROUTE_NAME - 1),
             distance_km := d, rate_per_km := r }]) := by
  unfold addRoute
  by_cases h : (ensureRouteCap s.routes allocOk).size ≥ (ensureRouteCap s.routes allocOk).cap
  · left
    simp only [h, if_true, true_and]
    exact ensureRouteCap_arr _ _
  · right
    simp only [h, if_false, true_and, ensureRouteCap_arr]

theorem addStudent_cases (s : StudentStore) (name : List Char) (routeId : Int)
    (allocOk : Bool) :
    ((addStudent s name routeId allocOk).1 = -1 ∧
        (addStudent s name routeId allocOk).2.nextStudentId = s.nextStudentId ∧
        (addStudent s name routeId allocOk).2.students.arr = s.students.arr) ∨
      ((addStudent s name routeId allocOk).1 = s.nextStudentId ∧
        (addStudent s name routeId allocOk).2.nextStudentId = s.nextStudentId + 1 ∧
        (addStudent s name routeId allocOk).2.students.arr = s.students.arr ++
          [{ id := s.nextStudentId, name := name.take (MAX_NAME - 1),
             routeId := routeId }]) := by
  unfold addStudent
  by_cases h : (ensureStudentCap s.students allocOk).size ≥
      (ensureStudentCap s.students allocOk).cap
  · left
    simp only [h, if_true, true_and]
    exact ensureStudentCap_arr _ _
  · right
    simp only [h, if_false, true_and, ensureStudentCap_arr]

theorem removeRouteById_absent (rl : RouteList) (id : Int)
    (h : ∀ r ∈ rl.arr, r.id ≠ id) : removeRouteById rl id = rl := by
  unfold removeRouteById findRouteIndexById
  rw [findIndexFrom_absent Route.id id rl.arr 0 h]
  rfl

theorem removeStudentById_absent (sl : StudentList) (id : Int)
    (h : ∀ s ∈ sl.arr, s.id ≠ id) : removeStudentById sl id = sl := by
  unfold removeStudentById findStudentIndexById
  rw [findIndexFrom_absent Student.id id sl.arr 0 h]
  rfl

theorem removeRouteById_present (rl : RouteList) (id : Int)
    (h : ∃ r ∈ rl.arr, r.id = id) :
    ∃ k : Nat, findRouteIndexById rl id = k ∧ k < rl.size ∧
      (∃ x, rl.arr[k]? = some x ∧ x.id = id) ∧
      (∀ j, j < k → ∀ y, rl.arr[j]? = some y → y.id ≠ id) ∧
      removeRouteById rl id = { rl with arr := rl.arr.eraseIdx k } := by
  obtain ⟨k, hk1, hk2, hk3, hk4⟩ := findIndexFrom_present Route.id id rl.arr 0 h
  have hk : findRouteIndexById rl id = k := by
    unfold findRouteIndexById; rw [hk1]; simp
  refine ⟨k, hk, hk2, hk3, hk4, ?_⟩
  unfold removeRouteById
  have hnn : ¬ ((k : Int) < 0) := by omega
  simp only [hk, hnn, if_false, Int.toNat_ofNat]
  rw [shiftLeft_dropLast]
  unfold RouteList.size; omega

theorem removeStudentById_present (sl : StudentList) (id : Int)
    (h : ∃ s ∈ sl.arr, s.id = id) :
    ∃ k : Nat, findStudentIndexById sl id = k ∧ k < sl.size ∧
      (∃ x, sl.arr[k]? = some x ∧ x.id = id) ∧
      (∀ j, j < k → ∀ y, sl.arr[j]? = some y → y.id ≠ id) ∧
      removeStudentById sl id = { sl with arr := sl.arr.eraseIdx k } := by
  obtain ⟨k, hk1, hk2, hk3, hk4⟩ := findIndexFrom_present Student.id id sl.arr 0 h
  have hk : findStudentIndexById sl id = k := by
    unfold findStudentIndexById; rw [hk1]; simp
  refine ⟨k, hk, hk2, hk3, hk4, ?_⟩
  unfold removeStudentById
  have hnn : ¬ ((k : Int) < 0) := by omega
  simp only [hk, hnn, if_false, Int.toNat_ofNat]
  rw [shiftLeft_dropLast]
  unfold StudentList.size; omega

theorem getRouteById_absent (rl : RouteList) (id : Int) (h : ∀ r ∈ rl.arr, r.id ≠ id) :
    getRouteById rl id = none := by
  unfold getRouteById findRouteIndexById
  rw [findIndexFrom_absent Route.id id rl.arr 0 h]
  rfl

theorem eraseIdx_shape {α : Type} (old : List α) (k : Nat) (hk : k < old.length) :
    (old.eraseIdx k).length + 1 = old.length ∧
      (∀ j, j < k → (old.eraseIdx k)[j]? = old[j]?) ∧
      (∀ j, k ≤ j → (old.eraseIdx k)[j]? = old[j + 1]?) ∧
      (old.eraseIdx k).Sublist old := by
  refine ⟨List.length_eraseIdx_add_one hk, ?_, ?_, List.eraseIdx_sublist old k⟩
  · intro j hj; exact List.getElem?_eraseIdx_of_lt old k j hj
  · intro j hj; exact List.getElem?_eraseIdx_of_ge old k j hj

/-! ## C2 -/

/-- C2 (as stated, refuted at its first example): for the student on the route with
distance 4.5 and rate 6.0, `calculateFeeForStudent` returns 73.15, which is
`(50 + 4.5 * 6.0) * 0.95`, and not 76.475. -/
theorem C2_example_value_refuted :
    getRouteById exampleRoutes (studentOn 1 1).routeId =
        some { id := 1, name := "North Campus".toList, distance_km := 9 / 2,
               rate_per_km := 6 } ∧
      calculateFeeForStudent (some (studentOn 1 1)) exampleRoutes = 1463 / 20 ∧
      calculateFeeForStudent (some (studentOn 1 1)) exampleRoutes ≠ 76475 / 1000 := by
  have h : calculateFeeForStudent (some (studentOn 1 1)) exampleRoutes = 1463 / 20 := by
    norm_num [calculateFeeForStudent, getRouteById, findRouteIndexById, findIndexFrom,
      exampleRoutes, studentOn]
  refine ⟨by rfl, h, ?_⟩
  rw [h]; norm_num

/-- C2 (amended): whenever `getRouteById` finds for the student's `routeId` a route with
distance `d` and rate `r`, `calculateFeeForStudent` returns `50 + d * r` when `d ≥ 5` and
`(50 + d * r) * 0.95` when `d < 5`, arithmetic read exactly; in particular distance 4.5
with rate 6.0 gives 73.15 and distance 12.0 with rate 5.0 gives 110. -/
theorem C2_fee_formula (st : Student) (rl : RouteList) (r : Route)
    (h : getRouteById rl st.routeId = some r) :
    (5 ≤ r.distance_km →
        calculateFeeForStudent (some st) rl = 50 + r.distance_km * r.rate_per_km) ∧
      (r.distance_km < 5 →
        calculateFeeForStudent (some st) rl =
          (50 + r.distance_km * r.rate_per_km) * (95 / 100)) ∧
      (r.distance_km = 9 / 2 → r.rate_per_km = 6 →
        calculateFeeForStudent (some st) rl = 7315 / 100) ∧
      (r.distance_km = 12 → r.rate_per_km = 5 →
        calculateFeeForStudent (some st) rl = 110) := by
  have hfee : calculateFeeForStudent (some st) rl =
      if r.distance_km < 5 then (50 + r.distance_km * r.rate_per_km) * (19 / 20)
      else 50 + r.distance_km * r.rate_per_km := by
    simp only [calculateFeeForStudent, h]
  refine ⟨?_, ?_, ?_, ?_⟩
  · intro hd
    rw [hfee, if_neg (not_lt.mpr hd)]
  · intro hd
    rw [hfee, if_pos hd]; norm_num
  · intro hd hr
    rw [hfee, hd, hr]; norm_num
  · intro hd hr
    rw [hfee, hd, hr]; norm_num

/-- Witness of C2 (amended): the two seeded routes of the spec's examples. -/
theorem C2_fee_formula_witness :
    calculateFeeForStudent (some (studentOn 1 1)) exampleRoutes = 7315 / 100 ∧
      calculateFeeForStudent (some (studentOn 2 2)) exampleRoutes = 110 :=
  ⟨(C2_fee_formula (studentOn 1 1) exampleRoutes
      { id := 1, name := "North Campus".toList, distance_km := 9 / 2, rate_per_km := 6 }
      (by rfl)).2.2.1 rfl rfl,
   (C2_fee_formula (studentOn 2 2) exampleRoutes
      { id := 2, name := "East Colony".toList, distance_km := 12, rate_per_km := 5 }
      (by rfl)).2.2.2 rfl rfl⟩

/-! ## C3 -/

/-- C3: for every student and every route store in which no route has id equal to the
student's `routeId` (routeId 0 and the empty store included), `calculateFeeForStudent`
returns exactly 0. -/
theorem C3_fee_zero_without_route (st : Student) (rl : RouteList)
    (h : ∀ r ∈ rl.arr, r.id ≠ st.routeId) :
    calculateFeeForStudent (some st) rl = 0 := by
  simp only [calculateFeeForStudent, getRouteById_absent rl st.routeId h]

/-- Witness of C3: routeId 0 against the seeded routes, and routeId 1 against the empty
store. -/
theorem C3_fee_zero_without_route_witness :
    calculateFeeForStudent (some (studentOn 1 0)) exampleRoutes = 0 ∧
      calculateFeeForStudent (some (studentOn 1 1)) initRouteList = 0 :=
  ⟨C3_fee_zero_without_route (studentOn 1 0) exampleRoutes (by decide),
   C3_fee_zero_without_route (studentOn 1 1) initRouteList (by decide)⟩

/-! ## C7 -/

/-- C7: for every store and every id that no stored record has, `removeRouteById`
(resp. `removeStudentById`) leaves the store unchanged: the same records in the same
order (hence the same size), the same capacity and the same id counter. -/
theorem C7_remove_absent_unchanged (rs : RouteStore) (ss : StudentStore) (rid sid : Int)
    (hr : ∀ r ∈ rs.routes.arr, r.id ≠ rid) (hs : ∀ s ∈ ss.students.arr, s.id ≠ sid) :
    (removeRouteById rs.routes rid = rs.routes ∧
        (removeRouteById rs.routes rid).size = rs.routes.size ∧
        (removeRouteById rs.routes rid).arr = rs.routes.arr ∧
        runRouteOps rs [.remove rid] = ([], rs)) ∧
      (removeStudentById ss.students sid = ss.students ∧
        (removeStudentById ss.students sid).size = ss.students.size ∧
        (removeStudentById ss.students sid).arr = ss.students.arr ∧
        runStudentOps ss [.remove sid] = ([], ss)) := by
  have h1 := removeRouteById_absent rs.routes rid hr
  have h2 := removeStudentById_absent ss.students sid hs
  refine ⟨⟨h1, by rw [h1], by rw [h1], ?_⟩, ⟨h2, by rw [h2], by rw [h2], ?_⟩⟩
  · simp only [runRouteOps, h1]
  · simp only [runStudentOps, h2]

/-- Witness of C7: removing id 7 from the seeded routes and id 5 from the example
students. -/
theorem C7_remove_absent_unchanged_witness :
    (removeRouteById exampleRoutes 7 = exampleRoutes ∧
        (removeRouteById exampleRoutes 7).size = exampleRoutes.size ∧
        (removeRouteById exampleRoutes 7).arr = exampleRoutes.arr ∧
        runRouteOps { routes := exampleRoutes, nextRouteId := 4 } [.remove 7] =
          ([], { routes := exampleRoutes, nextRouteId := 4 })) ∧
      (removeStudentById exampleStudents 5 = exampleStudents ∧
        (removeStudentById exampleStudents 5).size = exampleStudents.size ∧
        (removeStudentById exampleStudents 5).arr = exampleStudents.arr ∧
        runStudentOps { students := exampleStudents, nextStudentId := 4 } [.remove 5] =
          ([], { students := exampleStudents, nextStudentId := 4 })) :=
  C7_remove_absent_unchanged { routes := exampleRoutes, nextRouteId := 4 }
    { students := exampleStudents, nextStudentId := 4 } 7 5 (by decide) (by decide)

/-! ## C8 -/

/-- C8: for every store and every id held by some stored record, `removeRouteById`
(resp. `removeStudentById`) produces exactly the original sequence with the element at
the first matching index `k` deleted: `k` is what the index lookup returns and no
earlier record has the id; the size decreases by one; the elements before `k` are
unchanged; every element from `k` on is the old element one position later; the
survivors keep their relative order; the capacity is unchanged; and when `k = 0` the
new element `i` is the old element `i + 1` for every `i`. -/
theorem C8_remove_present_shifts (rl : RouteList) (sl : StudentList) (rid sid : Int)
    (hr : ∃ r ∈ rl.arr, r.id = rid) (hs : ∃ s ∈ sl.arr, s.id = sid) :
    (∃ k : Nat, findRouteIndexById rl rid = k ∧ k < rl.size ∧
        (∃ x, rl.arr[k]? = some x ∧ x.id = rid) ∧
        (∀ j, j < k → ∀ y, rl.arr[j]? = some y → y.id ≠ rid) ∧
        (removeRouteById rl rid).arr = rl.arr.eraseIdx k ∧
        (removeRouteById rl rid).cap = rl.cap ∧
        (removeRouteById rl rid).size + 1 = rl.size ∧
        (∀ j, j < k → (removeRouteById rl rid).arr[j]? = rl.arr[j]?) ∧
        (∀ j, k ≤ j → (removeRouteById rl rid).arr[j]? = rl.arr[j + 1]?) ∧
        (removeRouteById rl rid).arr.Sublist rl.arr ∧
        (k = 0 → ∀ i, (removeRouteById rl rid).arr[i]? = rl.arr[i + 1]?)) ∧
      (∃ k : Nat, findStudentIndexById sl sid = k ∧ k < sl.size ∧
        (∃ x, sl.arr[k]? = some x ∧ x.id = sid) ∧
        (∀ j, j < k → ∀ y, sl.arr[j]? = some y → y.id ≠ sid) ∧
        (removeStudentById sl sid).arr = sl.arr.eraseIdx k ∧
        (removeStudentById sl sid).cap = sl.cap ∧
        (removeStudentById sl sid).size + 1 = sl.size ∧
        (∀ j, j < k → (removeStudentById sl sid).arr[j]? = sl.arr[j]?) ∧
        (∀ j, k ≤ j → (removeStudentById sl sid).arr[j]? = sl.arr[j + 1]?) ∧
        (removeStudentById sl sid).arr.Sublist sl.arr ∧
        (k = 0 → ∀ i, (removeStudentById sl sid).arr[i]? = sl.arr[i + 1]?)) := by
  constructor
  · obtain ⟨k, h1, h2, h3, h4, h5⟩ := removeRouteById_present rl rid hr
    obtain ⟨e1, e2, e3, e4⟩ := eraseIdx_shape rl.arr k h2
    rw [h5]
    exact ⟨k, h1, h2, h3, h4, rfl, rfl, e1, e2, e3, e4,
      fun hk i => e3 i (by omega)⟩
  · obtain ⟨k, h1, h2, h3, h4, h5⟩ := removeStudentById_present sl sid hs
    obtain ⟨e1, e2, e3, e4⟩ := eraseIdx_shape sl.arr k h2
    rw [h5]
    exact ⟨k, h1, h2, h3, h4, rfl, rfl, e1, e2, e3, e4,
      fun hk i => e3 i (by omega)⟩

/-- Witness of C8: removing the first seeded route and the second example student. -/
theorem C8_remove_present_shifts_witness :
    (findRouteIndexById exampleRoutes 1 = 0 ∧
        (removeRouteById exampleRoutes 1).arr = exampleRoutes.arr.eraseIdx 0) ∧
      (removeStudentById exampleStudents 2).arr = [studentOn 1 1, studentOn 3 1] ∧
      ((∃ k : Nat, findRouteIndexById exampleRoutes 1 = k ∧ k < exampleRoutes.size ∧
          (∃ x, exampleRoutes.arr[k]? = some x ∧ x.id = 1) ∧
          (∀ j, j < k → ∀ y, exampleRoutes.arr[j]? = some y → y.id ≠ 1) ∧
          (removeRouteById exampleRoutes 1).arr = exampleRoutes.arr.eraseIdx k ∧
          (removeRouteById exampleRoutes 1).cap = exampleRoutes.cap ∧
          (removeRouteById exampleRoutes 1).size + 1 = exampleRoutes.size ∧
          (∀ j, j < k → (removeRouteById exampleRoutes 1).arr[j]? = exampleRoutes.arr[j]?) ∧
          (∀ j, k ≤ j →
            (removeRouteById exampleRoutes 1).arr[j]? = exampleRoutes.arr[j + 1]?) ∧
          (removeRouteById exampleRoutes 1).arr.Sublist exampleRoutes.arr ∧
          (k = 0 → ∀ i,
            (removeRouteById exampleRoutes 1).arr[i]? = exampleRoutes.arr[i + 1]?)) ∧
        (∃ k : Nat, findStudentIndexById exampleStudents 2 = k ∧ k < exampleStudents.size ∧
          (∃ x, exampleStudents.arr[k]? = some x ∧ x.id = 2) ∧
          (∀ j, j < k → ∀ y, exampleStudents.arr[j]? = some y → y.id ≠ 2) ∧
          (removeStudentById exampleStudents 2).arr = exampleStudents.arr.eraseIdx k ∧
          (removeStudentById exampleStudents 2).cap = exampleStudents.cap ∧
          (removeStudentById exampleStudents 2).size + 1 = exampleStudents.size ∧
          (∀ j, j < k →
            (removeStudentById exampleStudents 2).arr[j]? = exampleStudents.arr[j]?) ∧
          (∀ j, k ≤ j →
            (removeStudentById exampleStudents 2).arr[j]? = exampleStudents.arr[j + 1]?) ∧
          (removeStudentById exampleStudents 2).arr.Sublist exampleStudents.arr ∧
          (k = 0 → ∀ i,
            (removeStudentById exampleStudents 2).arr[i]? = exampleStudents.arr[i + 1]?))) :=
  ⟨⟨by rfl, by rfl⟩, by decide,
    C8_remove_present_shifts exampleRoutes exampleStudents 1 2
      ⟨_, List.mem_cons_self _ _, rfl⟩ ⟨studentOn 2 2, by decide, rfl⟩⟩

/-! ## Facts about load -/

theorem loadRoutesFromFile_cases (s : RouteStore) (disk : Option RouteFile) (allocOk : Bool) :
    (loadRoutesFromFile s disk allocOk = (-1, s) ∧
        (disk = none ∨ ∃ f, disk = some f ∧ f.count = none)) ∨
      (loadRoutesFromFile s disk allocOk = (-1, { s with routes := { arr := [], cap := 0 } }) ∧
        ∃ f n, disk = some f ∧ f.count = some n ∧ 0 < n ∧
          (allocOk = false ∨ f.records.length < n.toNat)) ∨
      (loadRoutesFromFile s disk allocOk = (0, { s with routes := { arr := [], cap := 0 } }) ∧
        ∃ f n, disk = some f ∧ f.count = some n ∧ n ≤ 0) ∨
      (∃ f n, disk = some f ∧ f.count = some n ∧ 0 < n ∧ allocOk = true ∧
        n.toNat ≤ f.records.length ∧
        loadRoutesFromFile s disk allocOk =
          (0, { routes := { arr := f.records.take n.toNat, cap := n.toNat },
                nextRouteId := maxIdLoop Route.id (f.records.take n.toNat) + 1 })) := by
  cases disk with
  | none => exact Or.inl ⟨rfl, Or.inl rfl⟩
  | some f =>
    cases hc : f.count with
    | none =>
      refine Or.inl ⟨?_, Or.inr ⟨f, rfl, hc⟩⟩
      simp only [loadRoutesFromFile, hc]
    | some n =>
      by_cases hn : n > 0
      · cases allocOk with
        | false =>
          refine Or.inr (Or.inl ⟨?_, f, n, rfl, hc, hn, Or.inl rfl⟩)
          simp [loadRoutesFromFile, hc, hn, freeRouteList]
        | true =>
          by_cases hl : (f.records.take n.toNat).length ≠ n.toNat
          · refine Or.inr (Or.inl ⟨?_, f, n, rfl, hc, hn, Or.inr ?_⟩)
            · simp only [loadRoutesFromFile, hc, hn, freeRouteList, if_true]; rw [if_pos hl]
            · rw [List.length_take] at hl; omega
          · refine Or.inr (Or.inr (Or.inr ⟨f, n, rfl, hc, hn, rfl, ?_, ?_⟩))
            · rw [List.length_take] at hl; omega
            · simp only [loadRoutesFromFile, hc, hn, hl, if_true, if_false]
      · refine Or.inr (Or.inr (Or.inl ⟨?_, f, n, rfl, hc, by omega⟩))
        simp only [loadRoutesFromFile, hc, hn, freeRouteList, if_false]

theorem loadStudentsFromFile_cases (s : StudentStore) (disk : Option StudentFile)
    (allocOk : Bool) :
    (loadStudentsFromFile s disk allocOk = (-1, s) ∧
        (disk = none ∨ ∃ f, disk = some f ∧ f.count = none)) ∨
      (loadStudentsFromFile s disk allocOk =
          (-1, { s with students := { arr := [], cap := 0 } }) ∧
        ∃ f n, disk = some f ∧ f.count = some n ∧ 0 < n ∧
          (allocOk = false ∨ f.records.length < n.toNat)) ∨
      (loadStudentsFromFile s disk allocOk =
          (0, { s with students := { arr := [], cap := 0 } }) ∧
        ∃ f n, disk = some f ∧ f.count = some n ∧ n ≤ 0) ∨
      (∃ f n, disk = some f ∧ f.count = some n ∧ 0 < n ∧ allocOk = true ∧
        n.toNat ≤ f.records.length ∧
        loadStudentsFromFile s disk allocOk =
          (0, { students := { arr := f.records.take n.toNat, cap := n.toNat },
                nextStudentId := maxIdLoop Student.id (f.records.take n.toNat) + 1 })) := by
  cases disk with
  | none => exact Or.inl ⟨rfl, Or.inl rfl⟩
  | some f =>
    cases hc : f.count with
    | none =>
      refine Or.inl ⟨?_, Or.inr ⟨f, rfl, hc⟩⟩
      simp only [loadStudentsFromFile, hc]
    | some n =>
      by_cases hn : n > 0
      · cases allocOk with
        | false =>
          refine Or.inr (Or.inl ⟨?_, f, n, rfl, hc, hn, Or.inl rfl⟩)
          simp [loadStudentsFromFile, hc, hn, freeStudentList]
        | true =>
          by_cases hl : (f.records.take n.toNat).length ≠ n.toNat
          · refine Or.inr (Or.inl ⟨?_, f, n, rfl, hc, hn, Or.inr ?_⟩)
            · simp only [loadStudentsFromFile, hc, hn, freeStudentList, if_true]; rw [if_pos hl]
            · rw [List.length_take] at hl; omega
          · refine Or.inr (Or.inr (Or.inr ⟨f, n, rfl, hc, hn, rfl, ?_, ?_⟩))
            · rw [List.length_take] at hl; omega
            · simp only [loadStudentsFromFile, hc, hn, hl, if_true, if_false]
      · refine Or.inr (Or.inr (Or.inl ⟨?_, f, n, rfl, hc, by omega⟩))
        simp only [loadStudentsFromFile, hc, hn, freeStudentList, if_false]

/-- C10: all-or-nothing load.  Whenever `loadRoutesFromFile` (resp.
`loadStudentsFromFile`) returns failure (-1), the id counter is unchanged and the
collection afterwards is either exactly what it was before the call or empty with size 0
and capacity 0; it is exactly what it was when the file cannot be opened or the count
cannot be read, and it is empty when the file holds fewer records than its count
claims.  So it never holds a partially read set of records. -/
theorem C10_load_all_or_nothing (rs : RouteStore) (rdisk : Option RouteFile) (ra : Bool)
    (ss : StudentStore) (sdisk : Option StudentFile) (sa : Bool)
    (hr : (loadRoutesFromFile rs rdisk ra).1 = -1)
    (hs : (loadStudentsFromFile ss sdisk sa).1 = -1) :
    ((loadRoutesFromFile rs rdisk ra).2.nextRouteId = rs.nextRouteId ∧
        ((loadRoutesFromFile rs rdisk ra).2.routes = rs.routes ∨
          ((loadRoutesFromFile rs rdisk ra).2.routes = { arr := [], cap := 0 } ∧
            (loadRoutesFromFile rs rdisk ra).2.routes.size = 0)) ∧
        ((rdisk = none ∨ ∃ f, rdisk = some f ∧ f.count = none) →
          (loadRoutesFromFile rs rdisk ra).2 = rs) ∧
        (∀ f n, rdisk = some f → f.count = some n → (f.records.length : Int) < n →
          (loadRoutesFromFile rs rdisk ra).2.routes = { arr := [], cap := 0 } ∧
            (loadRoutesFromFile rs rdisk ra).2.routes.size = 0)) ∧
      ((loadStudentsFromFile ss sdisk sa).2.nextStudentId = ss.nextStudentId ∧
        ((loadStudentsFromFile ss sdisk sa).2.students = ss.students ∨
          ((loadStudentsFromFile ss sdisk sa).2.students = { arr := [], cap := 0 } ∧
            (loadStudentsFromFile ss sdisk sa).2.students.size = 0)) ∧
        ((sdisk = none ∨ ∃ f, sdisk = some f ∧ f.count = none) →
          (loadStudentsFromFile ss sdisk sa).2 = ss) ∧
        (∀ f n, sdisk = some f → f.count = some n → (f.records.length : Int) < n →
          (loadStudentsFromFile ss sdisk sa).2.students = { arr := [], cap := 0 } ∧
            (loadStudentsFromFile ss sdisk sa).2.students.size = 0)) := by
  constructor
  · rcases loadRoutesFromFile_cases rs rdisk ra with
      ⟨e, hd⟩ | ⟨e, f, n, hd, hc, hn, _⟩ | ⟨e, _⟩ | ⟨f, n, _, _, _, _, _, e⟩
    · rw [e]
      refine ⟨rfl, Or.inl rfl, fun _ => rfl, ?_⟩
      intro f n hf hcount hlt
      rcases hd with hd | ⟨g, hg, hgc⟩
      · rw [hd] at hf; cases hf
      · rw [hg] at hf; cases hf; rw [hgc] at hcount; cases hcount
    · rw [e]
      refine ⟨rfl, Or.inr ⟨rfl, rfl⟩, ?_, fun _ _ _ _ _ => ⟨rfl, rfl⟩⟩
      rintro (h0 | ⟨g, hg, hgc⟩)
      · rw [h0] at hd; cases hd
      · rw [hg] at hd; cases hd; rw [hgc] at hc; cases hc
    · rw [e] at hr; cases hr
    · rw [e] at hr; cases hr
  · rcases loadStudentsFromFile_cases ss sdisk sa with
      ⟨e, hd⟩ | ⟨e, f, n, hd, hc, hn, _⟩ | ⟨e, _⟩ | ⟨f, n, _, _, _, _, _, e⟩
    · rw [e]
      refine ⟨rfl, Or.inl rfl, fun _ => rfl, ?_⟩
      intro f n hf hcount hlt
      rcases hd with hd | ⟨g, hg, hgc⟩
      · rw [hd] at hf; cases hf
      · rw [hg] at hf; cases hf; rw [hgc] at hcount; cases hcount
    · rw [e]
      refine ⟨rfl, Or.inr ⟨rfl, rfl⟩, ?_, fun _ _ _ _ _ => ⟨rfl, rfl⟩⟩
      rintro (h0 | ⟨g, hg, hgc⟩)
      · rw [h0] at hd; cases hd
      · rw [hg] at hd; cases hd; rw [hgc] at hc; cases hc
    · rw [e] at hs; cases hs
    · rw [e] at hs; cases hs

/-- Witness of C10: the seeded routes are in memory and the file holds one record of the
three it claims, so the load fails and leaves the route list empty; the students file
cannot be opened, so the load fails and leaves the students as they were. -/
theorem C10_load_all_or_nothing_witness :
    loadRoutesFromFile { routes := exampleRoutes, nextRouteId := 4 } (some shortRouteFile)
        true = (-1, { routes := { arr := [], cap := 0 }, nextRouteId := 4 }) ∧
      loadStudentsFromFile { students := exampleStudents, nextStudentId := 4 } none true =
        (-1, { students := exampleStudents, nextStudentId := 4 }) ∧
      (loadRoutesFromFile { routes := exampleRoutes, nextRouteId := 4 }
        (some shortRouteFile) true).2.nextRouteId = 4 ∧
      (loadStudentsFromFile { students := exampleStudents, nextStudentId := 4 }
        none true).2.nextStudentId = 4 :=
  ⟨by rfl, by rfl,
    (C10_load_all_or_nothing { routes := exampleRoutes, nextRouteId := 4 }
      (some shortRouteFile) true { students := exampleStudents, nextStudentId := 4 }
      none true (by decide) (by decide)).1.1,
    (C10_load_all_or_nothing { routes := exampleRoutes, nextRouteId := 4 }
      (some shortRouteFile) true { students := exampleStudents, nextStudentId := 4 }
      none true (by decide) (by decide)).2.1⟩

/-! ## Facts about command sequences -/

theorem summaryLoop_fold (rl : RouteList) (r : Route) (students : List Student)
    (acc : Int × ℚ) :
    students.foldl
        (fun acc s =>
          if s.routeId = r.id then (acc.1 + 1, acc.2 + calculateFeeForStudent (some s) rl)
          else acc)
        acc =
      (acc.1 + ((students.filter (fun s => decide (s.routeId = r.id))).length : Int),
       acc.2 + ((students.filter (fun s => decide (s.routeId = r.id))).map
          (fun s => calculateFeeForStudent (some s) rl)).sum) := by
  induction students generalizing acc with
  | nil => simp
  | cons s rest ih =>
    simp only [List.foldl_cons]
    rw [ih]
    by_cases h : s.routeId = r.id
    · simp only [h, if_true, List.filter_cons, decide_True, List.length_cons, List.map_cons,
        List.sum_cons]
      refine Prod.ext ?_ ?_
      · show acc.1 + 1 + _ = acc.1 + _
        push_cast; ring
      · show acc.2 + _ + _ = acc.2 + (_ + _)
        ring
    · simp only [h, if_false, List.filter_cons, decide_False]
      rfl

/-- C9: for every route store and student store, `printSummary` reports the routes in
stored order, one line per route with the route's name and id; the reported count is the
number of students whose `routeId` equals the route's id and the reported revenue is the
sum of `calculateFeeForStudent` over exactly those students, taken in stored order; a
line whose route has no such student reports count 0 and revenue 0. -/
theorem C9_summary_per_route (sl : StudentList) (rl : RouteList) :
    (printSummary sl rl).rows =
        rl.arr.map (fun r =>
          { name := r.name, id := r.id,
            count := ((sl.arr.filter (fun s => decide (s.routeId = r.id))).length : Int),
            revenue := ((sl.arr.filter (fun s => decide (s.routeId = r.id))).map
              (fun s => calculateFeeForStudent (some s) rl)).sum }) ∧
      (∀ line ∈ (printSummary sl rl).rows, (∀ s ∈ sl.arr, s.routeId ≠ line.id) →
        line.count = 0 ∧ line.revenue = 0) := by
  have hrows : (printSummary sl rl).rows =
      rl.arr.map (fun r =>
        { name := r.name, id := r.id,
          count := ((sl.arr.filter (fun s => decide (s.routeId = r.id))).length : Int),
          revenue := ((sl.arr.filter (fun s => decide (s.routeId = r.id))).map
            (fun s => calculateFeeForStudent (some s) rl)).sum }) := by
    unfold printSummary
    by_cases h0 : rl.size = 0
    · have harr : rl.arr = [] := List.length_eq_zero.mp h0
      simp [h0, harr, SummaryReport.rows]
    · simp only [h0, if_false, SummaryReport.rows]
      apply List.map_congr_left
      intro r _
      unfold summaryLoop
      rw [summaryLoop_fold]
      simp
  refine ⟨hrows, ?_⟩
  intro line hline hnone
  rw [hrows] at hline
  obtain ⟨r, _, rfl⟩ := List.mem_map.mp hline
  have hf : sl.arr.filter (fun s => decide (s.routeId = r.id)) = [] := by
    rw [List.filter_eq_nil_iff]
    intro s hs
    simpa using hnone s hs
  simp [hf]

/-- Witness of C9: the seeded routes with the example students; route 1 has two students
at 73.15 each, route 2 one at 110, route 3 none. -/
theorem C9_summary_per_route_witness :
    (printSummary exampleStudents exampleRoutes).rows =
      [{ name := "North Campus".toList, id := 1, count := 2, revenue := 1463 / 10 },
       { name := "East Colony".toList, id := 2, count := 1, revenue := 110 },
       { name := "West Market".toList, id := 3, count := 0, revenue := 0 }] := by
  rw [(C9_summary_per_route exampleStudents exampleRoutes).1]
  norm_num [exampleRoutes, exampleStudents, studentOn, calculateFeeForStudent, getRouteById,
    findRouteIndexById, findIndexFrom, List.filter]

/-! ## Facts about lookup -/

theorem lookup_present {α : Type} (key : α → Int) (id : Int) (l : List α)
    (h : ∃ x ∈ l, key x = id) :
    ∃ (k : Nat) (x : α), findIndexFrom key id l 0 = k ∧ k < l.length ∧ l[k]? = some x ∧
      key x = id ∧ (∀ j, j < k → ∀ y, l[j]? = some y → key y ≠ id) ∧
      (if findIndexFrom key id l 0 < 0 then none
        else l[(findIndexFrom key id l 0).toNat]?) = some x := by
  obtain ⟨k, hk1, hk2, ⟨x, hx1, hx2⟩, hk4⟩ := findIndexFrom_present key id l 0 h
  have hk : findIndexFrom key id l 0 = k := by rw [hk1]; simp
  refine ⟨k, x, hk, hk2, hx1, hx2, hk4, ?_⟩
  have hnn : ¬ ((k : Int) < 0) := by omega
  rw [hk, if_neg hnn, Int.toNat_ofNat, hx1]

theorem lookup_absent {α : Type} (key : α → Int) (id : Int) (l : List α)
    (h : ∀ x ∈ l, key x ≠ id) :
    (if findIndexFrom key id l 0 < 0 then none
      else l[(findIndexFrom key id l 0).toNat]?) = none := by
  rw [findIndexFrom_absent key id l 0 h]
  rfl

theorem findIndexFrom_eq_neg_one_iff {α : Type} (key : α → Int) (id : Int) (l : List α) :
    findIndexFrom key id l 0 = -1 ↔ ∀ x ∈ l, key x ≠ id := by
  constructor
  · intro hneg x hx hk
    obtain ⟨k, hk1, _⟩ := findIndexFrom_present key id l 0 ⟨x, hx, hk⟩
    rw [hk1] at hneg; omega
  · exact findIndexFrom_absent key id l 0

/-! ## C11 -/

/-- C11: for every store and id, `findRouteIndexById` (resp. `findStudentIndexById`)
returns -1 if and only if no stored record has that id, and otherwise returns the
smallest index below `size` whose record has that id; `getRouteById` (resp.
`getStudentById`) then returns the record at that index, and it returns not-found
exactly when the index lookup returns -1. -/
theorem C11_find_first_match (rl : RouteList) (sl : StudentList) (rid sid : Int) :
    ((findRouteIndexById rl rid = -1 ↔ ∀ r ∈ rl.arr, r.id ≠ rid) ∧
        (findRouteIndexById rl rid = -1 ∨
          ∃ (k : Nat) (x : Route), findRouteIndexById rl rid = k ∧ k < rl.size ∧
            rl.arr[k]? = some x ∧ x.id = rid ∧
            (∀ j, j < k → ∀ y, rl.arr[j]? = some y → y.id ≠ rid) ∧
            getRouteById rl rid = some x) ∧
        (getRouteById rl rid = none ↔ findRouteIndexById rl rid = -1)) ∧
      ((findStudentIndexById sl sid = -1 ↔ ∀ s ∈ sl.arr, s.id ≠ sid) ∧
        (findStudentIndexById sl sid = -1 ∨
          ∃ (k : Nat) (x : Student), findStudentIndexById sl sid = k ∧ k < sl.size ∧
            sl.arr[k]? = some x ∧ x.id = sid ∧
            (∀ j, j < k → ∀ y, sl.arr[j]? = some y → y.id ≠ sid) ∧
            getStudentById sl sid = some x) ∧
        (getStudentById sl sid = none ↔ findStudentIndexById sl sid = -1)) := by
  constructor
  · have hiff := findIndexFrom_eq_neg_one_iff Route.id rid rl.arr
    refine ⟨hiff, ?_, ?_⟩
    · by_cases h : ∃ r ∈ rl.arr, r.id = rid
      · exact Or.inr (lookup_present Route.id rid rl.arr h)
      · exact Or.inl (hiff.mpr (fun r hr hid => h ⟨r, hr, hid⟩))
    · constructor
      · intro hnone
        by_contra hne
        have h : ∃ r ∈ rl.arr, r.id = rid := by
          by_contra hno
          exact hne (hiff.mpr (fun r hr hid => hno ⟨r, hr, hid⟩))
        obtain ⟨k, x, _, _, _, _, _, hget⟩ := lookup_present Route.id rid rl.arr h
        have : getRouteById rl rid = some x := hget
        rw [hnone] at this; cases this
      · intro hneg
        exact lookup_absent Route.id rid rl.arr (hiff.mp hneg)
  · have hiff := findIndexFrom_eq_neg_one_iff Student.id sid sl.arr
    refine ⟨hiff, ?_, ?_⟩
    · by_cases h : ∃ r ∈ sl.arr, r.id = sid
      · exact Or.inr (lookup_present Student.id sid sl.arr h)
      · exact Or.inl (hiff.mpr (fun r hr hid => h ⟨r, hr, hid⟩))
    · constructor
      · intro hnone
        by_contra hne
        have h : ∃ r ∈ sl.arr, r.id = sid := by
          by_contra hno
          exact hne (hiff.mpr (fun r hr hid => hno ⟨r, hr, hid⟩))
        obtain ⟨k, x, _, _, _, _, _, hget⟩ := lookup_present Student.id sid sl.arr h
        have : getStudentById sl sid = some x := hget
        rw [hnone] at this; cases this
      · intro hneg
        exact lookup_absent Student.id sid sl.arr (hiff.mp hneg)

/-- Witness of C11: id 2 is at index 1 of the seeded routes, id 9 is nowhere; student 3 is
at index 2 of the example students. -/
theorem C11_find_first_match_witness :
    findRouteIndexById exampleRoutes 2 = 1 ∧ findRouteIndexById exampleRoutes 9 = -1 ∧
      findStudentIndexById exampleStudents 3 = 2 ∧
      getStudentById exampleStudents 3 = some (studentOn 3 1) ∧
      (getRouteById exampleRoutes 9 = none ↔ findRouteIndexById exampleRoutes 9 = -1) ∧
      (getStudentById exampleStudents 3 = none ↔
        findStudentIndexById exampleStudents 3 = -1) :=
  ⟨by decide, by decide, by decide, by decide,
    (C11_find_first_match exampleRoutes exampleStudents 9 3).1.2.2,
    (C11_find_first_match exampleRoutes exampleStudents 9 3).2.2.2⟩

/-! ## C13 -/

/-- C13: for every student and route store in which no route has id equal to the
student's `routeId`, `generateFeeSlip` returns -1 and appends nothing to the receipt log;
it also returns -1, appending nothing, when the log cannot be opened for append (and for
a `NULL` student); in every other case (student present, route found, log opened) it
returns 0 and appends one block whose amount is `calculateFeeForStudent` of that student
and whose route fields are those of the route found. -/
theorem C13_fee_slip_results (st : Student) (rl : RouteList) (receipts : List FeeSlip)
    (openOk : Bool) (clock : Int) :
    ((∀ r ∈ rl.arr, r.id ≠ st.routeId) →
        generateFeeSlip (some st) rl receipts openOk clock = (-1, receipts)) ∧
      (openOk = false → generateFeeSlip (some st) rl receipts openOk clock = (-1, receipts)) ∧
      generateFeeSlip none rl receipts openOk clock = (-1, receipts) ∧
      ((∃ r ∈ rl.arr, r.id = st.routeId) → openOk = true →
        ∃ r, getRouteById rl st.routeId = some r ∧
          generateFeeSlip (some st) rl receipts openOk clock =
            (0, receipts ++
              [{ date := clock, studentId := st.id, studentName := st.name,
                 routeName := r.name, routeId := r.id, distance_km := r.distance_km,
                 rate_per_km := r.rate_per_km,
                 amount := calculateFeeForStudent (some st) rl }])) := by
  refine ⟨?_, ?_, rfl, ?_⟩
  · intro h
    simp only [generateFeeSlip, getRouteById_absent rl st.routeId h]
  · intro h
    subst h
    cases hget : getRouteById rl st.routeId with
    | none => simp only [generateFeeSlip, hget]
    | some r => simp [generateFeeSlip, hget]
  · intro h hopen
    subst hopen
    obtain ⟨k, x, _, _, _, _, _, hget⟩ := lookup_present Route.id st.routeId rl.arr h
    have hg : getRouteById rl st.routeId = some x := hget
    exact ⟨x, hg, by simp only [generateFeeSlip, hg, if_true]⟩

/-- Witness of C13: a student on route 9, which the seeded routes do not have, gets no
slip; a student on route 2 gets one with amount 110. -/
theorem C13_fee_slip_results_witness :
    generateFeeSlip (some (studentOn 1 9)) exampleRoutes [] true 0 = (-1, []) ∧
      (generateFeeSlip (some (studentOn 2 2)) exampleRoutes [] true 0).1 = 0 ∧
      (∃ r, getRouteById exampleRoutes (studentOn 2 2).routeId = some r ∧
        generateFeeSlip (some (studentOn 2 2)) exampleRoutes [] true 0 =
          (0, [] ++
            [{ date := 0, studentId := (studentOn 2 2).id,
               studentName := (studentOn 2 2).name,
               routeName := r.name, routeId := r.id, distance_km := r.distance_km,
               rate_per_km := r.rate_per_km,
               amount := calculateFeeForStudent (some (studentOn 2 2)) exampleRoutes }])) :=
  ⟨(C13_fee_slip_results (studentOn 1 9) exampleRoutes [] true 0).1 (by decide),
    by rfl,
    (C13_fee_slip_results (studentOn 2 2) exampleRoutes [] true 0).2.2.2
      ⟨{ id := 2, name := "East Colony".toList, distance_km := 12, rate_per_km := 5 },
        by simp [exampleRoutes], rfl⟩ rfl⟩

/-! ## C14 -/

/-- C14 (the code at the failing input): the two files are what the saves write for one
stored route and no stored student; after the two loads the route list has size 1 and
capacity 1 and the student list is empty; `seedExampleData` then reads `rl->arr[1]`,
which is not below `rl->size`, whatever the allocations do. -/
theorem C14_seed_reads_past_size :
    (saveRoutesToFile
        { arr := [{ id := 1, name := "North Campus".toList, distance_km := 9 / 2,
                    rate_per_km := 6 }], cap := 4 } none true).2 = some oneRouteFile ∧
      (saveStudentsToFile { arr := [], cap := 8 } none true).2 = some noStudentFile ∧
      (loadAtStartup (some oneRouteFile) (some noStudentFile) true true).1.routes.size = 1 ∧
      (loadAtStartup (some oneRouteFile) (some noStudentFile) true true).1.routes.cap = 1 ∧
      (loadAtStartup (some oneRouteFile) (some noStudentFile) true true).2.students.size = 0 ∧
      (loadAtStartup (some oneRouteFile) (some noStudentFile) true true).1.routes.arr[1]? =
        none ∧
      ∀ allocOk : Nat → Bool,
        seedExampleData (loadAtStartup (some oneRouteFile) (some noStudentFile) true true).1
          (loadAtStartup (some oneRouteFile) (some noStudentFile) true true).2 allocOk =
          none :=
  ⟨by rfl, by rfl, by rfl, by rfl, by rfl, by rfl, fun _ => by rfl⟩

/-! ## Facts about reachable states -/

theorem find_of_first {α : Type} (p : α → Bool) (l : List α) (k : Nat) (x : α)
    (hx : l[k]? = some x) (hp : p x = true)
    (hbefore : ∀ j, j < k → ∀ y, l[j]? = some y → p y = false) : l.find? p = some x := by
  induction l generalizing k with
  | nil => simp at hx
  | cons a rest ih =>
    cases k with
    | zero =>
      simp at hx; subst hx
      simp [List.find?, hp]
    | succ k =>
      have ha : p a = false := hbefore 0 (by omega) a (by simp)
      simp only [List.find?, ha]
      exact ih k (by simpa using hx)
        (fun j hj y hy => hbefore (j + 1) (by omega) y (by simpa using hy))

theorem lookup_eq_find {α : Type} (key : α → Int) (id : Int) (l : List α) :
    (if findIndexFrom key id l 0 < 0 then none
      else l[(findIndexFrom key id l 0).toNat]?) = l.find? (fun x => decide (key x = id)) := by
  by_cases h : ∃ x ∈ l, key x = id
  · obtain ⟨k, x, _, _, hx, hkey, hbefore, hget⟩ := lookup_present key id l h
    rw [hget]
    symm
    apply find_of_first _ l k x hx (by simp [hkey])
    intro j hj y hy
    simpa using hbefore j hj y hy
  · have h' : ∀ x ∈ l, key x ≠ id := fun x hx hid => h ⟨x, hx, hid⟩
    rw [lookup_absent key id l h']
    symm
    rw [List.find?_eq_none]
    intro x hx
    simpa using h' x hx

theorem find_eraseIdx_of_not {α : Type} (p : α → Bool) (l : List α) (i : Nat) (x : α)
    (hx : l[i]? = some x) (hp : p x = false) : (l.eraseIdx i).find? p = l.find? p := by
  induction l generalizing i with
  | nil => rfl
  | cons a rest ih =>
    cases i with
    | zero =>
      simp at hx; subst hx
      simp [List.find?, hp]
    | succ i =>
      simp only [List.eraseIdx_cons_succ, List.find?]
      cases p a with
      | true => rfl
      | false => exact ih i (by simpa using hx)

theorem eraseIdx_no_key {α : Type} (key : α → Int) (l : List α) (i : Nat) (x : α)
    (hnd : (l.map key).Nodup) (hx : l[i]? = some x) :
    ∀ y ∈ l.eraseIdx i, key y ≠ key x := by
  induction l generalizing i with
  | nil => simp at hx
  | cons a rest ih =>
    rw [List.map_cons, List.nodup_cons] at hnd
    cases i with
    | zero =>
      simp at hx; subst hx
      intro y hy hk
      rw [List.eraseIdx_cons_zero] at hy
      exact hnd.1 (hk ▸ List.mem_map_of_mem key hy)
    | succ i =>
      have hx' : rest[i]? = some x := by simpa using hx
      have hxmem : x ∈ rest := List.getElem?_mem hx'
      intro y hy hk
      rw [List.eraseIdx_cons_succ] at hy
      rcases List.mem_cons.mp hy with rfl | hy'
      · exact hnd.1 (hk ▸ List.mem_map_of_mem key hxmem)
      · exact ih i hnd.2 hx' y hy' hk

theorem getRouteById_eq_find (rl : RouteList) (id : Int) :
    getRouteById rl id = rl.arr.find? (fun r => decide (r.id = id)) :=
  lookup_eq_find Route.id id rl.arr

theorem getStudentById_eq_find (sl : StudentList) (id : Int) :
    getStudentById sl id = sl.arr.find? (fun s => decide (s.id = id)) :=
  lookup_eq_find Student.id id sl.arr

/-! ## C17 -/

/-- C17: remove-then-get.  For every store whose records have pairwise distinct ids and
every id `k`, after `removeRouteById(k)` (resp. `removeStudentById(k)`) the lookup
`getRouteById(k)` (resp. `getStudentById(k)`) is not-found, and for every other id `j`
the lookup returns the same record, or not-found, as before the removal. -/
theorem C17_remove_then_get (rl : RouteList) (sl : StudentList) (rk sk : Int)
    (hr : (rl.arr.map Route.id).Nodup) (hs : (sl.arr.map Student.id).Nodup) :
    (getRouteById (removeRouteById rl rk) rk = none ∧
        ∀ j, j ≠ rk → getRouteById (removeRouteById rl rk) j = getRouteById rl j) ∧
      (getStudentById (removeStudentById sl sk) sk = none ∧
        ∀ j, j ≠ sk → getStudentById (removeStudentById sl sk) j = getStudentById sl j) := by
  constructor
  · by_cases h : ∃ r ∈ rl.arr, r.id = rk
    · obtain ⟨k, _, _, ⟨x, hx, hxid⟩, _, h5⟩ := removeRouteById_present rl rk h
      rw [h5]
      constructor
      · apply getRouteById_absent
        intro y hy
        have := eraseIdx_no_key Route.id rl.arr k x hr hx y hy
        rw [hxid] at this; exact this
      · intro j hj
        rw [getRouteById_eq_find, getRouteById_eq_find]
        exact find_eraseIdx_of_not _ rl.arr k x hx (by simp [hxid, Ne.symm hj])
    · have h' : ∀ r ∈ rl.arr, r.id ≠ rk := fun r hr hid => h ⟨r, hr, hid⟩
      rw [removeRouteById_absent rl rk h']
      exact ⟨getRouteById_absent rl rk h', fun _ _ => rfl⟩
  · by_cases h : ∃ r ∈ sl.arr, r.id = sk
    · obtain ⟨k, _, _, ⟨x, hx, hxid⟩, _, h5⟩ := removeStudentById_present sl sk h
      rw [h5]
      constructor
      · show (if findIndexFrom Student.id sk (sl.arr.eraseIdx k) 0 < 0 then none
          else (sl.arr.eraseIdx k)[(findIndexFrom Student.id sk (sl.arr.eraseIdx k) 0).toNat]?)
            = none
        apply lookup_absent
        intro y hy
        have := eraseIdx_no_key Student.id sl.arr k x hs hx y hy
        rw [hxid] at this; exact this
      · intro j hj
        rw [getStudentById_eq_find, getStudentById_eq_find]
        exact find_eraseIdx_of_not _ sl.arr k x hx (by simp [hxid, Ne.symm hj])
    · have h' : ∀ r ∈ sl.arr, r.id ≠ sk := fun r hr hid => h ⟨r, hr, hid⟩
      rw [removeStudentById_absent sl sk h']
      exact ⟨lookup_absent Student.id sk sl.arr h', fun _ _ => rfl⟩

/-- Witness of C17: route 2 is removed from the seeded routes and student 1 from the
example students. -/
theorem C17_remove_then_get_witness :
    (getRouteById (removeRouteById exampleRoutes 2) 2 = none ∧
        ∀ j, j ≠ 2 → getRouteById (removeRouteById exampleRoutes 2) j =
          getRouteById exampleRoutes j) ∧
      (getStudentById (removeStudentById exampleStudents 1) 1 = none ∧
        ∀ j, j ≠ 1 → getStudentById (removeStudentById exampleStudents 1) j =
          getStudentById exampleStudents j) :=
  C17_remove_then_get exampleRoutes exampleStudents 2 1 (by decide) (by decide)

/-! ## Facts about the fee -/

theorem fee_of_found (st : Student) (rl : RouteList) (r : Route)
    (h : getRouteById rl st.routeId = some r) :
    calculateFeeForStudent (some st) rl =
      if r.distance_km < 5 then (50 + r.distance_km * r.rate_per_km) * (19 / 20)
      else 50 + r.distance_km * r.rate_per_km := by
  simp only [calculateFeeForStudent, h]

theorem getRouteById_mem (rl : RouteList) (id : Int) (r : Route)
    (h : getRouteById rl id = some r) : r ∈ rl.arr ∧ r.id = id := by
  rw [getRouteById_eq_find] at h
  refine ⟨List.mem_of_find?_eq_some h, ?_⟩
  simpa using List.find?_some h

/-! ## C19 -/

/-- C19: the fee is monotone in the distance.  When `calculateFeeForStudent` finds for one
student a route with distance `d1` and for another a route with distance `d2`, both with
the same non-negative rate, and `0 ≤ d1 ≤ d2`, then the first fee is at most the second,
also when `d1 < 5 ≤ d2` (arithmetic read exactly). -/
theorem C19_fee_monotone_in_distance (st1 st2 : Student) (rl1 rl2 : RouteList)
    (a b : Route)
    (ha : getRouteById rl1 st1.routeId = some a) (hb : getRouteById rl2 st2.routeId = some b)
    (hrate : a.rate_per_km = b.rate_per_km) (hr : 0 ≤ a.rate_per_km)
    (hd0 : 0 ≤ a.distance_km) (hd : a.distance_km ≤ b.distance_km) :
    calculateFeeForStudent (some st1) rl1 ≤ calculateFeeForStudent (some st2) rl2 := by
  rw [fee_of_found st1 rl1 a ha, fee_of_found st2 rl2 b hb, ← hrate]
  have h1 : 0 ≤ a.distance_km * a.rate_per_km := mul_nonneg hd0 hr
  have h2 : a.distance_km * a.rate_per_km ≤ b.distance_km * a.rate_per_km :=
    mul_le_mul_of_nonneg_right hd hr
  split <;> split <;> linarith

/-- Witness of C19: with rate 6, the fee at distance 4.5 (73.15) is at most the fee at
distance 5 (80). -/
theorem C19_fee_monotone_in_distance_witness :
    calculateFeeForStudent (some (studentOn 1 1)) exampleRoutes ≤
      calculateFeeForStudent (some (studentOn 2 1))
        { arr := [{ id := 1, name := [], distance_km := 5, rate_per_km := 6 }], cap := 4 } :=
  C19_fee_monotone_in_distance (studentOn 1 1) (studentOn 2 1) exampleRoutes
    { arr := [{ id := 1, name := [], distance_km := 5, rate_per_km := 6 }], cap := 4 }
    { id := 1, name := "North Campus".toList, distance_km := 9 / 2, rate_per_km := 6 }
    { id := 1, name := [], distance_km := 5, rate_per_km := 6 }
    (by rfl) (by rfl) rfl (by norm_num) (by norm_num) (by norm_num)

/-! ## Facts about the 32-bit reading -/

theorem wrapInt_of_range (x : Int) (h1 : -2147483648 ≤ x) (h2 : x ≤ 2147483647) :
    wrapInt x = x := by
  unfold wrapInt; omega

theorem wrapInt_succ_int_max : wrapInt (2147483647 + 1) = -2147483648 := by decide

/-- Below `INT_MAX` the two readings of `addRoute` agree. -/
theorem int32_addRoute_eq (s : RouteStore) (name : List Char) (d r : ℚ) (allocOk : Bool)
    (h1 : -2147483648 ≤ s.nextRouteId) (h2 : s.nextRouteId < 2147483647) :
    Int32.addRoute s name d r allocOk = addRoute s name d r allocOk := by
  unfold Int32.addRoute addRoute
  rw [wrapInt_of_range (s.nextRouteId + 1) (by omega) (by omega)]

/-- Below `INT_MAX` the two readings of `addStudent` agree. -/
theorem int32_addStudent_eq (s : StudentStore) (name : List Char) (routeId : Int)
    (allocOk : Bool)
    (h1 : -2147483648 ≤ s.nextStudentId) (h2 : s.nextStudentId < 2147483647) :
    Int32.addStudent s name routeId allocOk = addStudent s name routeId allocOk := by
  unfold Int32.addStudent addStudent
  rw [wrapInt_of_range (s.nextStudentId + 1) (by omega) (by omega)]

theorem maxIdLoop_lt {α : Type} (key : α → Int) (l : List α) (b : Int) (hb : 0 < b)
    (h : ∀ x ∈ l, key x < b) : maxIdLoop key l < b := by
  rcases foldl_max_attained key l 0 with h0 | ⟨x, hx, hk⟩
  · unfold maxIdLoop; rw [h0]; exact hb
  · unfold maxIdLoop; rw [← hk]; exact h x hx

/-- When every record read has an id below `INT_MAX` the two readings of
`loadRoutesFromFile` agree. -/
theorem int32_loadRoutesFromFile_eq (s : RouteStore) (disk : Option RouteFile)
    (allocOk : Bool) (h : ∀ f, disk = some f → ∀ r ∈ f.records, r.id < 2147483647) :
    Int32.loadRoutesFromFile s disk allocOk = loadRoutesFromFile s disk allocOk := by
  cases disk with
  | none => rfl
  | some f =>
    have hf := h f rfl
    have hw : ∀ k : Nat, wrapInt (maxIdLoop Route.id (f.records.take k) + 1) =
        maxIdLoop Route.id (f.records.take k) + 1 := by
      intro k
      have h0 := maxIdLoop_nonneg Route.id (f.records.take k)
      have h1 := maxIdLoop_lt Route.id (f.records.take k) 2147483647 (by norm_num)
        (fun x hx => hf x (List.mem_of_mem_take hx))
      exact wrapInt_of_range _ (by omega) (by omega)
    unfold Int32.loadRoutesFromFile loadRoutesFromFile
    simp only [hw]

/-- When every record read has an id below `INT_MAX` the two readings of
`loadStudentsFromFile` agree. -/
theorem int32_loadStudentsFromFile_eq (s : StudentStore) (disk : Option StudentFile)
    (allocOk : Bool) (h : ∀ f, disk = some f → ∀ r ∈ f.records, r.id < 2147483647) :
    Int32.loadStudentsFromFile s disk allocOk = loadStudentsFromFile s disk allocOk := by
  cases disk with
  | none => rfl
  | some f =>
    have hf := h f rfl
    have hw : ∀ k : Nat, wrapInt (maxIdLoop Student.id (f.records.take k) + 1) =
        maxIdLoop Student.id (f.records.take k) + 1 := by
      intro k
      have h0 := maxIdLoop_nonneg Student.id (f.records.take k)
      have h1 := maxIdLoop_lt Student.id (f.records.take k) 2147483647 (by norm_num)
        (fun x hx => hf x (List.mem_of_mem_take hx))
      exact wrapInt_of_range _ (by omega) (by omega)
    unfold Int32.loadStudentsFromFile loadStudentsFromFile
    simp only [hw]

/-- C5 (as stated, refuted): a route list holding one record with the positive id
`INT_MAX` is saved and loaded; both calls return 0 and the records come back, but the id
counter afterwards is `INT_MIN`, not the maximum stored id plus 1. -/
theorem C5_counter_wraps_at_int_max :
    1 ≤ maxIdRoutes.size ∧ (∀ r ∈ maxIdRoutes.arr, 0 < r.id) ∧
      (saveRoutesToFile maxIdRoutes none true).1 = 0 ∧
      Int32.loadRoutesFromFile initRouteStore (saveRoutesToFile maxIdRoutes none true).2 true =
        (0, { routes := { arr := maxIdRoutes.arr, cap := 1 }, nextRouteId := -2147483648 }) ∧
      (Int32.loadRoutesFromFile initRouteStore
        (saveRoutesToFile maxIdRoutes none true).2 true).2.nextRouteId ≠ 2147483647 + 1 := by
  decide

/-- C5 (amended): save-then-load round trip.  For every route list (resp. student list)
of `N ≥ 1` records with positive ids below `INT_MAX`, `saveRoutesToFile` (resp.
`saveStudentsToFile`) with the file opened returns 0, and `loadRoutesFromFile` (resp.
`loadStudentsFromFile`) of the written file into any store, with the memory allocated,
returns 0 and yields the same records in the same order, hence size `N`; afterwards the
id counter is the maximum stored id plus 1. -/
theorem C5_round_trip_below_int_max (rl : RouteList) (rs : RouteStore)
    (rdisk : Option RouteFile) (sl : StudentList) (ss : StudentStore)
    (sdisk : Option StudentFile)
    (hrn : 1 ≤ rl.size) (hrp : ∀ r ∈ rl.arr, 0 < r.id ∧ r.id < INT_MAX)
    (hsn : 1 ≤ sl.size) (hsp : ∀ s ∈ sl.arr, 0 < s.id ∧ s.id < INT_MAX) :
    ((saveRoutesToFile rl rdisk true).1 = 0 ∧
        (Int32.loadRoutesFromFile rs (saveRoutesToFile rl rdisk true).2 true).1 = 0 ∧
        (Int32.loadRoutesFromFile rs (saveRoutesToFile rl rdisk true).2 true).2.routes.arr =
          rl.arr ∧
        (Int32.loadRoutesFromFile rs (saveRoutesToFile rl rdisk true).2 true).2.routes.size =
          rl.size ∧
        ∃ m ∈ rl.arr, (∀ r ∈ rl.arr, r.id ≤ m.id) ∧
          (Int32.loadRoutesFromFile rs
            (saveRoutesToFile rl rdisk true).2 true).2.nextRouteId = m.id + 1) ∧
      ((saveStudentsToFile sl sdisk true).1 = 0 ∧
        (Int32.loadStudentsFromFile ss (saveStudentsToFile sl sdisk true).2 true).1 = 0 ∧
        (Int32.loadStudentsFromFile ss
          (saveStudentsToFile sl sdisk true).2 true).2.students.arr = sl.arr ∧
        (Int32.loadStudentsFromFile ss
          (saveStudentsToFile sl sdisk true).2 true).2.students.size = sl.size ∧
        ∃ m ∈ sl.arr, (∀ s ∈ sl.arr, s.id ≤ m.id) ∧
          (Int32.loadStudentsFromFile ss
            (saveStudentsToFile sl sdisk true).2 true).2.nextStudentId = m.id + 1) := by
  constructor
  · have hpos : rl.size > 0 := hrn
    have hne : ∃ x ∈ rl.arr, 0 < Route.id x := by
      cases harr : rl.arr with
      | nil => simp [RouteList.size, harr] at hrn
      | cons x xs =>
        exact ⟨x, List.mem_cons_self _ _,
          (hrp x (by rw [harr]; exact List.mem_cons_self _ _)).1⟩
    obtain ⟨m, hm, hmax⟩ := maxIdLoop_attained Route.id rl.arr hne
    have hmlt : m.id < 2147483647 := (hrp m hm).2
    have hw : wrapInt (maxIdLoop Route.id rl.arr + 1) = maxIdLoop Route.id rl.arr + 1 := by
      have := (hrp m hm).1
      exact wrapInt_of_range _ (by rw [← hmax]; omega) (by rw [← hmax]; omega)
    have hload : Int32.loadRoutesFromFile rs (saveRoutesToFile rl rdisk true).2 true =
        (0, { routes := { arr := rl.arr, cap := rl.size },
              nextRouteId := maxIdLoop Route.id rl.arr + 1 }) := by
      have hn : ((rl.size : Int) > 0) := by exact_mod_cast hpos
      simp only [saveRoutesToFile, Int32.loadRoutesFromFile, if_true, hpos, hn,
        Int.toNat_ofNat]
      simp [RouteList.size, hw]
    refine ⟨rfl, by rw [hload], by rw [hload], by rw [hload]; rfl, m, hm, ?_, ?_⟩
    · intro r hr; rw [hmax]; exact maxIdLoop_ge Route.id rl.arr r hr
    · rw [hload, hmax]
  · have hpos : sl.size > 0 := hsn
    have hne : ∃ x ∈ sl.arr, 0 < Student.id x := by
      cases harr : sl.arr with
      | nil => simp [StudentList.size, harr] at hsn
      | cons x xs =>
        exact ⟨x, List.mem_cons_self _ _,
          (hsp x (by rw [harr]; exact List.mem_cons_self _ _)).1⟩
    obtain ⟨m, hm, hmax⟩ := maxIdLoop_attained Student.id sl.arr hne
    have hmlt : m.id < 2147483647 := (hsp m hm).2
    have hw : wrapInt (maxIdLoop Student.id sl.arr + 1) =
        maxIdLoop Student.id sl.arr + 1 := by
      have := (hsp m hm).1
      exact wrapInt_of_range _ (by rw [← hmax]; omega) (by rw [← hmax]; omega)
    have hload : Int32.loadStudentsFromFile ss (saveStudentsToFile sl sdisk true).2 true =
        (0, { students := { arr := sl.arr, cap := sl.size },
              nextStudentId := maxIdLoop Student.id sl.arr + 1 }) := by
      have hn : ((sl.size : Int) > 0) := by exact_mod_cast hpos
      simp only [saveStudentsToFile, Int32.loadStudentsFromFile, if_true, hpos, hn,
        Int.toNat_ofNat]
      simp [StudentList.size, hw]
    refine ⟨rfl, by rw [hload], by rw [hload], by rw [hload]; rfl, m, hm, ?_, ?_⟩
    · intro r hr; rw [hmax]; exact maxIdLoop_ge Student.id sl.arr r hr
    · rw [hload, hmax]

/-- Witness of C5 (amended): the seeded routes and the example students, saved and loaded
into the initial stores; the counters become 4. -/
theorem C5_round_trip_below_int_max_witness :
    (Int32.loadRoutesFromFile initRouteStore
        (saveRoutesToFile exampleRoutes none true).2 true).2 =
        { routes := { arr := exampleRoutes.arr, cap := 3 }, nextRouteId := 4 } ∧
      (Int32.loadStudentsFromFile initStudentStore
          (saveStudentsToFile exampleStudents none true).2 true).2 =
        { students := { arr := exampleStudents.arr, cap := 3 }, nextStudentId := 4 } ∧
      (Int32.loadRoutesFromFile initRouteStore
          (saveRoutesToFile exampleRoutes none true).2 true).2.routes.arr =
        exampleRoutes.arr ∧
      (Int32.loadStudentsFromFile initStudentStore
          (saveStudentsToFile exampleStudents none true).2 true).2.students.arr =
        exampleStudents.arr :=
  ⟨by rfl, by rfl,
    (C5_round_trip_below_int_max exampleRoutes initRouteStore none exampleStudents
      initStudentStore none (by decide) (by decide) (by decide) (by decide)).1.2.2.1,
    (C5_round_trip_below_int_max exampleRoutes initRouteStore none exampleStudents
      initStudentStore none (by decide) (by decide) (by decide) (by decide)).2.2.2.1⟩

/-! ## C6 -/

/-- C12 (as stated, refuted): with the counter at `INT_MAX` and a free slot, `addRoute`
(resp. `addStudent`) succeeds and returns `INT_MAX`, and the counter afterwards is
`INT_MIN`, not the old value plus one. -/
theorem C12_counter_wraps_at_int_max :
    ((Int32.addRoute { routes := exampleRoutes, nextRouteId := 2147483647 } [] 3 2 true).1 =
          2147483647 ∧
        (Int32.addRoute { routes := exampleRoutes, nextRouteId := 2147483647 }
          [] 3 2 true).2.routes.size = exampleRoutes.size + 1 ∧
        (Int32.addRoute { routes := exampleRoutes, nextRouteId := 2147483647 }
          [] 3 2 true).2.nextRouteId = -2147483648 ∧
        (Int32.addRoute { routes := exampleRoutes, nextRouteId := 2147483647 }
          [] 3 2 true).2.nextRouteId ≠ 2147483647 + 1) ∧
      ((Int32.addStudent { students := exampleStudents, nextStudentId := 2147483647 }
          [] 2 true).1 = 2147483647 ∧
        (Int32.addStudent { students := exampleStudents, nextStudentId := 2147483647 }
          [] 2 true).2.nextStudentId = -2147483648 ∧
        (Int32.addStudent { students := exampleStudents, nextStudentId := 2147483647 }
          [] 2 true).2.nextStudentId ≠ 2147483647 + 1) := by
  decide

/-- C12 (amended): for every store, an `addRoute` (resp. `addStudent`) that gets past the
capacity test of line 85 (resp. 150), that is a successful one, returns the counter's
value before the call, increases `size` by exactly one, leaves every previously stored
record unchanged at its index, and places at the last index a record carrying the
returned id, the name cut to 63 characters and the given distance and rate (resp.
routeId): the stored sequence is the old one with the new record appended.  It increases
the counter by exactly one when the counter is below `INT_MAX`; at `INT_MAX` the counter
becomes `INT_MIN`. -/
theorem C12_add_appends_below_int_max (rs : RouteStore) (name : List Char) (d r : ℚ)
    (ra : Bool) (ss : StudentStore) (sname : List Char) (routeId : Int) (sa : Bool)
    (hr : (ensureRouteCap rs.routes ra).size < (ensureRouteCap rs.routes ra).cap)
    (hs : (ensureStudentCap ss.students sa).size < (ensureStudentCap ss.students sa).cap) :
    ((Int32.addRoute rs name d r ra).1 = rs.nextRouteId ∧
        (INT_MIN ≤ rs.nextRouteId → rs.nextRouteId < INT_MAX →
          (Int32.addRoute rs name d r ra).2.nextRouteId = rs.nextRouteId + 1) ∧
        (rs.nextRouteId = INT_MAX →
          (Int32.addRoute rs name d r ra).2.nextRouteId = INT_MIN) ∧
        (Int32.addRoute rs name d r ra).2.routes.size = rs.routes.size + 1 ∧
        (∀ i, i < rs.routes.size →
          (Int32.addRoute rs name d r ra).2.routes.arr[i]? = rs.routes.arr[i]?) ∧
        (Int32.addRoute rs name d r ra).2.routes.arr[rs.routes.size]? =
          some { id := rs.nextRouteId, name := name.take 63, distance_km := d,
                 rate_per_km := r } ∧
        (Int32.addRoute rs name d r ra).2.routes.arr = rs.routes.arr ++
          [{ id := rs.nextRouteId, name := name.take 63, distance_km := d,
             rate_per_km := r }]) ∧
      ((Int32.addStudent ss sname routeId sa).1 = ss.nextStudentId ∧
        (INT_MIN ≤ ss.nextStudentId → ss.nextStudentId < INT_MAX →
          (Int32.addStudent ss sname routeId sa).2.nextStudentId = ss.nextStudentId + 1) ∧
        (ss.nextStudentId = INT_MAX →
          (Int32.addStudent ss sname routeId sa).2.nextStudentId = INT_MIN) ∧
        (Int32.addStudent ss sname routeId sa).2.students.size = ss.students.size + 1 ∧
        (∀ i, i < ss.students.size →
          (Int32.addStudent ss sname routeId sa).2.students.arr[i]? = ss.students.arr[i]?) ∧
        (Int32.addStudent ss sname routeId sa).2.students.arr[ss.students.size]? =
          some { id := ss.nextStudentId, name := sname.take 63, routeId := routeId } ∧
        (Int32.addStudent ss sname routeId sa).2.students.arr = ss.students.arr ++
          [{ id := ss.nextStudentId, name := sname.take 63, routeId := routeId }]) := by
  constructor
  · have hadd : Int32.addRoute rs name d r ra =
        (rs.nextRouteId,
          { routes := { ensureRouteCap rs.routes ra with
              arr := rs.routes.arr ++
                [{ id := rs.nextRouteId, name := name.take 63, distance_km := d,
                   rate_per_km := r }] },
            nextRouteId := wrapInt (rs.nextRouteId + 1) }) := by
      have hg : ¬ (ensureRouteCap rs.routes ra).size ≥ (ensureRouteCap rs.routes ra).cap :=
        Nat.not_le.mpr hr
      simp only [Int32.addRoute, hg, if_false, ensureRouteCap_arr, MAX_ROUTE_NAME]
    rw [hadd]
    refine ⟨rfl, ?_, ?_, ?_, ?_, ?_, rfl⟩
    · intro h1 h2
      exact wrapInt_of_range _ (by unfold INT_MIN at h1; omega) (by unfold INT_MAX at h2; omega)
    · intro h
      show wrapInt (rs.nextRouteId + 1) = INT_MIN
      rw [h]; decide
    · simp [RouteList.size]
    · intro i hi
      exact List.getElem?_append_left hi
    · simp [RouteList.size]
  · have hadd : Int32.addStudent ss sname routeId sa =
        (ss.nextStudentId,
          { students := { ensureStudentCap ss.students sa with
              arr := ss.students.arr ++
                [{ id := ss.nextStudentId, name := sname.take 63, routeId := routeId }] },
            nextStudentId := wrapInt (ss.nextStudentId + 1) }) := by
      have hg : ¬ (ensureStudentCap ss.students sa).size ≥
          (ensureStudentCap ss.students sa).cap := Nat.not_le.mpr hs
      simp only [Int32.addStudent, hg, if_false, ensureStudentCap_arr, MAX_NAME]
    rw [hadd]
    refine ⟨rfl, ?_, ?_, ?_, ?_, ?_, rfl⟩
    · intro h1 h2
      exact wrapInt_of_range _ (by unfold INT_MIN at h1; omega) (by unfold INT_MAX at h2; omega)
    · intro h
      show wrapInt (ss.nextStudentId + 1) = INT_MIN
      rw [h]; decide
    · simp [StudentList.size]
    · intro i hi
      exact List.getElem?_append_left hi
    · simp [StudentList.size]

/-- Witness of C12 (amended): a fourth route is added to the seeded routes (counter 4, one
free slot), and a fourth student to the example students. -/
theorem C12_add_appends_below_int_max_witness :
    (Int32.addRoute { routes := exampleRoutes, nextRouteId := 4 } [] 3 2 true).1 = 4 ∧
      (Int32.addStudent { students := exampleStudents, nextStudentId := 4 } [] 2 true).1 = 4 ∧
      (Int32.addRoute { routes := exampleRoutes, nextRouteId := 4 } [] 3 2 true).2.nextRouteId =
        4 + 1 ∧
      (Int32.addRoute { routes := exampleRoutes, nextRouteId := 4 } [] 3 2 true).2.routes.arr =
        exampleRoutes.arr ++
          [{ id := 4, name := List.take 63 [], distance_km := 3, rate_per_km := 2 }] ∧
      (Int32.addStudent { students := exampleStudents, nextStudentId := 4 } [] 2
          true).2.students.arr =
        exampleStudents.arr ++ [{ id := 4, name := List.take 63 [], routeId := 2 }] :=
  ⟨by decide, by decide,
    (C12_add_appends_below_int_max { routes := exampleRoutes, nextRouteId := 4 } [] 3 2 true
      { students := exampleStudents, nextStudentId := 4 } [] 2 true
      (by decide) (by decide)).1.2.1 (by decide) (by decide),
    (C12_add_appends_below_int_max { routes := exampleRoutes, nextRouteId := 4 } [] 3 2 true
      { students := exampleStudents, nextStudentId := 4 } [] 2 true
      (by decide) (by decide)).1.2.2.2.2.2.2,
    (C12_add_appends_below_int_max { routes := exampleRoutes, nextRouteId := 4 } [] 3 2 true
      { students := exampleStudents, nextStudentId := 4 } [] 2 true
      (by decide) (by decide)).2.2.2.2.2.2.2⟩

/-! ## C16 -/

theorem ieee_fee_of_finite (st : Student) (rl : IEEE.RouteList) (r : IEEE.Route) (d q : ℚ)
    (h : IEEE.getRouteById rl st.routeId = some r) (hd : r.distance_km = .fin d)
    (hq : r.rate_per_km = .fin q) :
    IEEE.calculateFeeForStudent (some st) rl =
      .fin (if d < 5 then (50 + d * q) * (19 / 20) else 50 + d * q) := by
  simp only [IEEE.calculateFeeForStudent, h, hd, hq, Dbl.mul, Dbl.add, Dbl.lt]
  by_cases h5 : d < 5
  · simp [h5, Dbl.mul]
  · simp [h5]

/-- C18 (as stated, refuted): the one stored route has distance `+inf` and rate 0, both
non-negative; a student on that route is charged NaN, which is neither 0 nor at least
47.5. -/
theorem C18_infinite_distance_gives_nan :
    (∀ r ∈ infiniteRoutes.arr,
        Dbl.le (.fin 0) r.distance_km = true ∧ Dbl.le (.fin 0) r.rate_per_km = true) ∧
      (∃ r ∈ infiniteRoutes.arr, r.id = (studentOn 1 1).routeId) ∧
      IEEE.calculateFeeForStudent (some (studentOn 1 1)) infiniteRoutes = .nan ∧
      Dbl.le (.fin (475 / 10))
        (IEEE.calculateFeeForStudent (some (studentOn 1 1)) infiniteRoutes) = false := by
  have hfee : IEEE.calculateFeeForStudent (some (studentOn 1 1)) infiniteRoutes = .nan := by
    rfl
  refine ⟨?_, ⟨_, List.mem_cons_self _ _, rfl⟩, hfee, by rw [hfee]; rfl⟩
  intro r hr
  simp only [infiniteRoutes, List.mem_singleton] at hr
  subst hr
  exact ⟨rfl, by simp [Dbl.le]⟩

/-- C18 (amended): for every route store whose routes all have finite non-negative
distance and finite non-negative rate (arithmetic on finite values read exactly), and
every student, `calculateFeeForStudent` returns 0 if and only if no route has id equal to
the student's `routeId`; whenever a route has that id the fee is finite and at least
47.5, so a zero fee tells that the route is missing. -/
theorem C18_zero_fee_iff_no_route_finite (st : Student) (rl : IEEE.RouteList)
    (hnn : ∀ r ∈ rl.arr, ∃ d q : ℚ,
      r.distance_km = .fin d ∧ r.rate_per_km = .fin q ∧ 0 ≤ d ∧ 0 ≤ q) :
    (IEEE.calculateFeeForStudent (some st) rl = .fin 0 ↔
        ∀ r ∈ rl.arr, r.id ≠ st.routeId) ∧
      ((∃ r ∈ rl.arr, r.id = st.routeId) →
        ∃ f : ℚ, IEEE.calculateFeeForStudent (some st) rl = .fin f ∧ 475 / 10 ≤ f ∧
          Dbl.le (.fin (475 / 10)) (IEEE.calculateFeeForStudent (some st) rl) = true) := by
  have hfound : (∃ r ∈ rl.arr, r.id = st.routeId) →
      ∃ f : ℚ, IEEE.calculateFeeForStudent (some st) rl = .fin f ∧ 475 / 10 ≤ f ∧
        Dbl.le (.fin (475 / 10)) (IEEE.calculateFeeForStudent (some st) rl) = true := by
    intro h
    obtain ⟨k, x, _, _, hx, _, _, hget⟩ := lookup_present IEEE.Route.id st.routeId rl.arr h
    have hg : IEEE.getRouteById rl st.routeId = some x := hget
    obtain ⟨d, q, hd, hq, hd0, hq0⟩ := hnn x (List.getElem?_mem hx)
    have hprod : 0 ≤ d * q := mul_nonneg hd0 hq0
    have hfee := ieee_fee_of_finite st rl x d q hg hd hq
    have hge : 475 / 10 ≤ (if d < 5 then (50 + d * q) * (19 / 20) else 50 + d * q) := by
      split <;> linarith
    refine ⟨_, hfee, hge, ?_⟩
    rw [hfee]
    simp only [Dbl.le, decide_eq_true_eq]
    exact hge
  refine ⟨⟨?_, ?_⟩, hfound⟩
  · intro hzero r hr hid
    obtain ⟨f, hf, hge, _⟩ := hfound ⟨r, hr, hid⟩
    rw [hzero] at hf
    injection hf with hf
    rw [← hf] at hge
    norm_num at hge
  · intro h
    have hnone : IEEE.getRouteById rl st.routeId = none :=
      lookup_absent IEEE.Route.id st.routeId rl.arr h
    simp only [IEEE.calculateFeeForStudent, hnone]

/-- Witness of C18 (amended): against the seeded routes a student on route 9 owes 0 and a
student on route 1 owes a finite amount of at least 47.5. -/
theorem C18_zero_fee_iff_no_route_finite_witness :
    (IEEE.calculateFeeForStudent (some (studentOn 1 9)) exampleRoutesIEEE = .fin 0 ↔
        ∀ r ∈ exampleRoutesIEEE.arr, r.id ≠ (studentOn 1 9).routeId) ∧
      (∃ f : ℚ,
        IEEE.calculateFeeForStudent (some (studentOn 1 1)) exampleRoutesIEEE = .fin f ∧
          475 / 10 ≤ f ∧
          Dbl.le (.fin (475 / 10))
            (IEEE.calculateFeeForStudent (some (studentOn 1 1)) exampleRoutesIEEE) = true) :=
  have hfin : ∀ r ∈ exampleRoutesIEEE.arr, ∃ d q : ℚ,
      r.distance_km = .fin d ∧ r.rate_per_km = .fin q ∧ 0 ≤ d ∧ 0 ≤ q := by
    intro r hr
    simp only [exampleRoutesIEEE, List.mem_cons, List.mem_singleton, List.not_mem_nil,
      or_false] at hr
    rcases hr with rfl | rfl | rfl
    · exact ⟨9 / 2, 6, rfl, rfl, by norm_num, by norm_num⟩
    · exact ⟨12, 5, rfl, rfl, by norm_num, by norm_num⟩
    · exact ⟨8, 11 / 2, rfl, rfl, by norm_num, by norm_num⟩
  ⟨(C18_zero_fee_iff_no_route_finite (studentOn 1 9) exampleRoutesIEEE hfin).1,
    (C18_zero_fee_iff_no_route_finite (studentOn 1 1) exampleRoutesIEEE hfin).2
      ⟨_, List.mem_cons_self _ _, rfl⟩⟩

/-! ## The two readings of the counters agree below `INT_MAX` -/

theorem int32_addRoute_fst (s : RouteStore) (name : List Char) (d r : ℚ) (allocOk : Bool) :
    (Int32.addRoute s name d r allocOk).1 = (addRoute s name d r allocOk).1 := by
  unfold Int32.addRoute addRoute
  by_cases h : (ensureRouteCap s.routes allocOk).size ≥ (ensureRouteCap s.routes allocOk).cap
  · simp only [h, if_true]
  · simp only [h, if_false]

theorem int32_addStudent_fst (s : StudentStore) (name : List Char) (routeId : Int)
    (allocOk : Bool) :
    (Int32.addStudent s name routeId allocOk).1 = (addStudent s name routeId allocOk).1 := by
  unfold Int32.addStudent addStudent
  by_cases h : (ensureStudentCap s.students allocOk).size ≥
      (ensureStudentCap s.students allocOk).cap
  · simp only [h, if_true]
  · simp only [h, if_false]

/-- As long as the counter does not pass `INT_MAX`, a sequence of route operations returns
the same ids in both readings. -/
theorem int32_runRouteOps_eq (ops : List RouteOp) (s : RouteStore)
    (h1 : -2147483648 ≤ s.nextRouteId)
    (h2 : s.nextRouteId + (ops.length : Int) ≤ 2147483648) :
    (Int32.runRouteOps s ops).1 = (runRouteOps s ops).1 := by
  induction ops generalizing s with
  | nil => rfl
  | cons o ops ih =>
    simp only [List.length_cons, Nat.cast_add, Nat.cast_one] at h2
    cases o with
    | add name d r allocOk =>
      simp only [Int32.runRouteOps, runRouteOps]
      by_cases hc : s.nextRouteId < 2147483647
      · rw [int32_addRoute_eq s name d r allocOk h1 hc]
        congr 1
        apply ih
        · rcases addRoute_cases s name d r allocOk with ⟨_, e2, _⟩ | ⟨_, e2, _⟩ <;>
            (rw [e2]; omega)
        · rcases addRoute_cases s name d r allocOk with ⟨_, e2, _⟩ | ⟨_, e2, _⟩ <;>
            (rw [e2]; omega)
      · have hlen : ops.length = 0 := by omega
        have hnil : ops = [] := List.length_eq_zero.mp hlen
        subst hnil
        simp only [Int32.runRouteOps, runRouteOps, int32_addRoute_fst]
    | remove id =>
      simp only [Int32.runRouteOps, runRouteOps]
      apply ih
      · exact h1
      · show s.nextRouteId + (ops.length : Int) ≤ 2147483648
        omega

/-- As long as the counter does not pass `INT_MAX`, a sequence of student operations
returns the same ids in both readings. -/
theorem int32_runStudentOps_eq (ops : List StudentOp) (s : StudentStore)
    (h1 : -2147483648 ≤ s.nextStudentId)
    (h2 : s.nextStudentId + (ops.length : Int) ≤ 2147483648) :
    (Int32.runStudentOps s ops).1 = (runStudentOps s ops).1 := by
  induction ops generalizing s with
  | nil => rfl
  | cons o ops ih =>
    simp only [List.length_cons, Nat.cast_add, Nat.cast_one] at h2
    cases o with
    | add name routeId allocOk =>
      simp only [Int32.runStudentOps, runStudentOps]
      by_cases hc : s.nextStudentId < 2147483647
      · rw [int32_addStudent_eq s name routeId allocOk h1 hc]
        congr 1
        apply ih
        · rcases addStudent_cases s name routeId allocOk with ⟨_, e2, _⟩ | ⟨_, e2, _⟩ <;>
            (rw [e2]; omega)
        · rcases addStudent_cases s name routeId allocOk with ⟨_, e2, _⟩ | ⟨_, e2, _⟩ <;>
            (rw [e2]; omega)
      · have hlen : ops.length = 0 := by omega
        have hnil : ops = [] := List.length_eq_zero.mp hlen
        subst hnil
        simp only [Int32.runStudentOps, runStudentOps, int32_addStudent_fst]
    | remove id =>
      simp only [Int32.runStudentOps, runStudentOps]
      apply ih
      · exact h1
      · show s.nextStudentId + (ops.length : Int) ≤ 2147483648
        omega

/-- From the initial store, sequences of at most `INT_MAX` route operations return the
same ids in both readings. -/
theorem int32_runRouteOps_init_eq (ops : List RouteOp) (h : ops.length ≤ 2147483647) :
    (Int32.runRouteOps initRouteStore ops).1 = (runRouteOps initRouteStore ops).1 := by
  apply int32_runRouteOps_eq
  · show (-2147483648 : Int) ≤ 1
    norm_num
  · show (1 : Int) + (ops.length : Int) ≤ 2147483648
    omega

end BusManager
